import Mathlib

/-!
# pkg/database: UpdateDatabase and CullDatabase

A shallow embedding of `pkg/database/database.go`.  The two functions run SQL
statements through Go's `database/sql` against SQLite.  The embedding keeps

* the persisted tables `nodes` and `pods` as lists of rows, in insertion order;
* the transaction handle with its working copy of both tables and the `done`
  flag of `sql.Tx`;
* the list of `database/sql` calls the function has made so far;
* an environment that decides which call fails inside the driver and what the
  store's clock reads when a call executes.

Timestamps are whole seconds (SQLite's `datetime` has second resolution).
The window of `CullDatabase` is a `time.Duration` in nanoseconds; its
`Seconds()` and the `%.0f` that prints them are computed as float64 does.
-/

namespace Database

/-! ## Data model -/

/-- A row of table nodes: `(uid, name, cpu, memory, storage, time)`. -/
structure NodeRow where
  uid : String
  name : String
  cpu : Int
  memory : Int
  storage : Int
  time : Int
deriving DecidableEq, Repr

/-- A row of table pods: `(uid, name, namespace, container, cpu, memory, storage, time)`. -/
structure PodRow where
  uid : String
  name : String
  Namespace : String
  container : String
  cpu : Int
  memory : Int
  storage : Int
  time : Int
deriving DecidableEq, Repr

/-- A `resource.Quantity`, seen through the only method the code calls on it:
`MilliValue()`, an int64. -/
structure Quantity where
  MilliValue : Int
deriving DecidableEq, Repr

/-- A `v1.ResourceList`, seen through the accessors `Cpu()`, `Memory()` and
`StorageEphemeral()`. -/
structure ResourceList where
  Cpu : Quantity
  Memory : Quantity
  StorageEphemeral : Quantity
deriving DecidableEq, Repr

/-- One item of `v1beta1.NodeMetricsList`. -/
structure NodeMetrics where
  UID : String
  Name : String
  Usage : ResourceList
deriving DecidableEq, Repr

/-- One container of a `v1beta1.PodMetrics`. -/
structure ContainerMetrics where
  Name : String
  Usage : ResourceList
deriving DecidableEq, Repr

/-- One item of `v1beta1.PodMetricsList`. -/
structure PodMetrics where
  UID : String
  Name : String
  Namespace : String
  Containers : List ContainerMetrics
deriving DecidableEq, Repr

/-! ## The store, seen through `database/sql` -/

/-- Errors a call can return: an error raised by the driver or the engine
(numbered by the environment), or `sql.ErrTxDone`. -/
inductive Err where
  | driver (code : Nat)
  | ErrTxDone
deriving DecidableEq, Repr

/-- The `database/sql` methods the two functions call. -/
inductive Call where
  | Begin
  | Prepare
  | Exec
  | Commit
  | Rollback
deriving DecidableEq, Repr

/-- The environment of one invocation.  `fault n = some code` makes the call
number `n` of the invocation (counted from 0) fail in the driver with that
code; `now n` is what the store's clock reads while call number `n` runs. -/
structure Env where
  fault : Nat → Option Nat
  now : Nat → Int

/-- A `*sql.Tx` that is not nil: the transaction's working copy of the two
tables and the `done` flag.  `database/sql` sets `done` as soon as `Commit` or
`Rollback` is called, whatever the driver answers, and every later operation
on the handle returns `sql.ErrTxDone`. -/
structure Tx where
  nodes : List NodeRow
  pods : List PodRow
  done : Bool
deriving DecidableEq, Repr

/-- The persisted tables. -/
structure DB where
  nodes : List NodeRow
  pods : List PodRow
deriving DecidableEq, Repr

/-- The database handle during one invocation: the persisted tables and the
calls the invocation has made so far. -/
structure Conn where
  db : DB
  calls : List Call
deriving DecidableEq, Repr

/-- Record one more call. -/
def Conn.call (c : Conn) (k : Call) : Conn :=
  { c with calls := c.calls ++ [k] }

/-- The four SQL statements of the source. -/
inductive Stmt where
  | insertNodes
  | insertPods
  | deleteNodes
  | deletePods
deriving DecidableEq, Repr

/-- Method `db.Begin()`: on failure the handle is nil and the error is set. -/
def Begin (env : Env) (c : Conn) : Conn × Except Err Tx :=
  match env.fault c.calls.length with
  | some code => (c.call Call.Begin, Except.error (Err.driver code))
  | none => (c.call Call.Begin, Except.ok ⟨c.db.nodes, c.db.pods, false⟩)

/-- Method `tx.Prepare(query)` on a handle that is not nil: on failure the statement
is nil and the error is set. -/
def Prepare (env : Env) (c : Conn) (tx : Tx) (q : Stmt) : Conn × Except Err Stmt :=
  if tx.done then (c.call Call.Prepare, Except.error Err.ErrTxDone)
  else
    match env.fault c.calls.length with
    | some code => (c.call Call.Prepare, Except.error (Err.driver code))
    | none => (c.call Call.Prepare, Except.ok q)

/-- Call `stmt.Exec(uid, name, cpu, memory, storage)` of the insert into nodes; the
time column is `datetime('now')`, the store's clock when the statement runs.
A failed statement inserts nothing. -/
def ExecInsertNode (env : Env) (c : Conn) (tx : Tx)
    (uid name : String) (cpu memory storage : Int) : Conn × Tx × Option Err :=
  if tx.done then (c.call Call.Exec, tx, some Err.ErrTxDone)
  else
    match env.fault c.calls.length with
    | some code => (c.call Call.Exec, tx, some (Err.driver code))
    | none =>
      (c.call Call.Exec,
        { tx with nodes := tx.nodes ++ [⟨uid, name, cpu, memory, storage, env.now c.calls.length⟩] },
        none)

/-- Call `stmt.Exec(uid, name, namespace, container, cpu, memory, storage)` of the
insert into pods. -/
def ExecInsertPod (env : Env) (c : Conn) (tx : Tx)
    (uid name ns container : String) (cpu memory storage : Int) : Conn × Tx × Option Err :=
  if tx.done then (c.call Call.Exec, tx, some Err.ErrTxDone)
  else
    match env.fault c.calls.length with
    | some code => (c.call Call.Exec, tx, some (Err.driver code))
    | none =>
      (c.call Call.Exec,
        { tx with pods := tx.pods ++
            [⟨uid, name, ns, container, cpu, memory, storage, env.now c.calls.length⟩] },
        none)

/-! ### SQLite's `datetime('now', modifier)` -/

/-- Value of a run of decimal digits. -/
def digitsValue (ds : List Char) : Nat :=
  ds.foldl (fun a ch => a * 10 + (ch.toNat - 48)) 0

/-- The SQLite date modifier `NNN seconds`, for the integer forms of `NNN` that
`%.0f` can print: one optional sign (`+` or `-`), at least one digit, then
` seconds` (or ` second`).  The result is the number of seconds the modifier
adds.  Anything else is not a modifier (`none`); in particular a second sign
is not part of a number. -/
def parseModifier (z : List Char) : Option Int :=
  let body := match z with
    | '+' :: r => r
    | '-' :: r => r
    | r => r
  let negative := match z with
    | '-' :: _ => true
    | _ => false
  let num := body.takeWhile Char.isDigit
  let unit := body.dropWhile Char.isDigit
  if num = [] then none
  else if unit = " seconds".toList ∨ unit = " second".toList then
    some (if negative then -(digitsValue num : Int) else (digitsValue num : Int))
  else none

/-- SQLite's `datetime('now', modifier)`: the clock moved by the modifier, or NULL
(`none`) when the modifier is not valid. -/
def datetimeNow (now : Int) (modifier : List Char) : Option Int :=
  (parseModifier modifier).map (fun d => now + d)

/-- The condition `time <= datetime('now', ?)` on a row's time; a comparison
with NULL is not true. -/
def timeLeCutoff (time : Int) (cutoff : Option Int) : Bool :=
  match cutoff with
  | some t => decide (time ≤ t)
  | none => false

/-- Call `nodestmt.Exec(windowStr)`: the delete from nodes.  A failed statement
deletes nothing. -/
def ExecDeleteNodes (env : Env) (c : Conn) (tx : Tx) (windowStr : List Char) :
    Conn × Tx × Option Err :=
  if tx.done then (c.call Call.Exec, tx, some Err.ErrTxDone)
  else
    match env.fault c.calls.length with
    | some code => (c.call Call.Exec, tx, some (Err.driver code))
    | none =>
      let cutoff := datetimeNow (env.now c.calls.length) windowStr
      (c.call Call.Exec, { tx with nodes := tx.nodes.filter (fun r => !(timeLeCutoff r.time cutoff)) }, none)

/-- Call `podstmt.Exec(windowStr)`: the delete from pods. -/
def ExecDeletePods (env : Env) (c : Conn) (tx : Tx) (windowStr : List Char) :
    Conn × Tx × Option Err :=
  if tx.done then (c.call Call.Exec, tx, some Err.ErrTxDone)
  else
    match env.fault c.calls.length with
    | some code => (c.call Call.Exec, tx, some (Err.driver code))
    | none =>
      let cutoff := datetimeNow (env.now c.calls.length) windowStr
      (c.call Call.Exec, { tx with pods := tx.pods.filter (fun r => !(timeLeCutoff r.time cutoff)) }, none)

/-- Method `tx.Commit()`: the handle becomes done; when the driver commits, the
working copy becomes the persisted tables, and when it fails they stay as they
were. -/
def Commit (env : Env) (c : Conn) (tx : Tx) : Conn × Tx × Option Err :=
  if tx.done then (c.call Call.Commit, tx, some Err.ErrTxDone)
  else
    match env.fault c.calls.length with
    | some code => (c.call Call.Commit, { tx with done := true }, some (Err.driver code))
    | none =>
      ({ db := ⟨tx.nodes, tx.pods⟩, calls := c.calls ++ [Call.Commit] },
        { tx with done := true }, none)

/-- Method `tx.Rollback()`: on a handle that is already done it returns
`sql.ErrTxDone`; otherwise the handle becomes done and the working copy is
dropped. -/
def Rollback (env : Env) (c : Conn) (tx : Tx) : Conn × Tx × Option Err :=
  if tx.done then (c.call Call.Rollback, tx, some Err.ErrTxDone)
  else
    match env.fault c.calls.length with
    | some code => (c.call Call.Rollback, { tx with done := true }, some (Err.driver code))
    | none =>
      (c.call Call.Rollback, { nodes := c.db.nodes, pods := c.db.pods, done := true }, none)

/-! ## The two functions -/

/-- How an invocation ends: it returns its `error` (`none` is nil), or it
panics on a nil pointer. -/
inductive Outcome where
  | returned (err : Option Err)
  | panicked
deriving DecidableEq, Repr

/-- What an invocation leaves behind: how it ended, the database handle
(persisted tables and the calls made), and the local `tx` (`none` is nil). -/
structure Final where
  outcome : Outcome
  conn : Conn
  tx : Option Tx
deriving DecidableEq, Repr

/-- The loop over `nodeMetrics.Items` (source lines 42 to 47). -/
def insertNodeItems (env : Env) : List NodeMetrics → Conn → Tx → Conn × Tx × Option Err
  | [], c, tx => (c, tx, none)
  | v :: rest, c, tx =>
    match ExecInsertNode env c tx v.UID v.Name v.Usage.Cpu.MilliValue
        (v.Usage.Memory.MilliValue.tdiv 1000) (v.Usage.StorageEphemeral.MilliValue.tdiv 1000) with
    | (c1, tx1, some e) => (c1, tx1, some e)
    | (c1, tx1, none) => insertNodeItems env rest c1 tx1

/-- The inner loop over `v.Containers` (source lines 56 to 61). -/
def insertContainers (env : Env) (v : PodMetrics) :
    List ContainerMetrics → Conn → Tx → Conn × Tx × Option Err
  | [], c, tx => (c, tx, none)
  | u :: rest, c, tx =>
    match ExecInsertPod env c tx v.UID v.Name v.Namespace u.Name u.Usage.Cpu.MilliValue
        (u.Usage.Memory.MilliValue.tdiv 1000) (u.Usage.StorageEphemeral.MilliValue.tdiv 1000) with
    | (c1, tx1, some e) => (c1, tx1, some e)
    | (c1, tx1, none) => insertContainers env v rest c1 tx1

/-- The outer loop over `podMetrics.Items` (source lines 55 to 62). -/
def insertPodItems (env : Env) : List PodMetrics → Conn → Tx → Conn × Tx × Option Err
  | [], c, tx => (c, tx, none)
  | v :: rest, c, tx =>
    match insertContainers env v v.Containers c tx with
    | (c1, tx1, some e) => (c1, tx1, some e)
    | (c1, tx1, none) => insertPodItems env rest c1 tx1

/-- The tail shared by both functions: `tx.Commit()`, and on its failure
`tx.Rollback()` (source lines 64 to 74 and 109 to 119). -/
def commitOrRollback (env : Env) (c : Conn) (tx : Tx) : Final :=
  match Commit env c tx with
  | (c1, tx1, some err) =>
    match Rollback env c1 tx1 with
    | (c2, tx2, some rberr) => ⟨Outcome.returned (some rberr), c2, some tx2⟩
    | (c2, tx2, none) => ⟨Outcome.returned (some err), c2, some tx2⟩
  | (c1, tx1, none) => ⟨Outcome.returned none, c1, some tx1⟩

/-- Function `UpdateDatabase(db, nodeMetrics, podMetrics)`.  The deferred `stmt.Close()`
calls change neither the tables nor the transaction and are left out. -/
def UpdateDatabase (env : Env) (db : DB) (nodeMetrics : List NodeMetrics)
    (podMetrics : List PodMetrics) : Final :=
  match Begin env ⟨db, []⟩ with
  | (c1, Except.error err) => ⟨Outcome.returned (some err), c1, none⟩
  | (c1, Except.ok tx) =>
    match Prepare env c1 tx Stmt.insertNodes with
    | (c2, Except.error err) => ⟨Outcome.returned (some err), c2, some tx⟩
    | (c2, Except.ok _) =>
      match insertNodeItems env nodeMetrics c2 tx with
      | (c3, tx3, some err) => ⟨Outcome.returned (some err), c3, some tx3⟩
      | (c3, tx3, none) =>
        match Prepare env c3 tx3 Stmt.insertPods with
        | (c4, Except.error err) => ⟨Outcome.returned (some err), c4, some tx3⟩
        | (c4, Except.ok _) =>
          match insertPodItems env podMetrics c4 tx3 with
          | (c5, tx5, some err) => ⟨Outcome.returned (some err), c5, some tx5⟩
          | (c5, tx5, none) => commitOrRollback env c5 tx5

/-! ### `window.Seconds()` and `%.0f`

A `time.Duration` is an int64 count of nanoseconds.  `Seconds()` returns the
float64 `float64(sec) + float64(nsec)/1e9` with `sec := d / Second` and
`nsec := d % Second`, and `%.0f` prints that float64 rounded to a whole number.
Floats are kept as exact values `man * 2 ^ exp`; every operation computes the
exact result and rounds it to a 53-bit significand, to nearest with ties to
even, as IEEE 754 binary64 does.  The magnitudes that occur here, from
`1e-9` to `2 ^ 34`, are far from the subnormal and overflow ranges. -/

/-- Go's `time.Second`, in nanoseconds. -/
def Second : Int := 1000000000

/-- The values of a `time.Duration`: the int64 range. -/
def IsDuration (d : Int) : Prop :=
  -9223372036854775808 ≤ d ∧ d ≤ 9223372036854775807

/-- The integer nearest to `a / b`, the even one of the two on a tie (`b > 0`). -/
def roundHalfEven (a b : Nat) : Nat :=
  if 2 * (a % b) < b then a / b
  else if b < 2 * (a % b) then a / b + 1
  else if (a / b) % 2 = 0 then a / b else a / b + 1

/-- Number of halvings that bring `n` below 2, with `fuel` steps allowed. -/
def bitLengthAux : Nat → Nat → Nat
  | 0, _ => 0
  | fuel + 1, n => if n < 2 then 0 else bitLengthAux fuel (n / 2) + 1

/-- The largest `k` with `2 ^ k ≤ n`, for `n > 0`. -/
def log2Floor (n : Nat) : Nat := bitLengthAux n n

/-- The magnitude of a finite float: `man * 2 ^ exp`. -/
structure Dyadic where
  man : Nat
  exp : Int
deriving DecidableEq, Repr

/-- Rounding to the 53-bit significand of a float64: a significand below
`2 ^ 53` is kept, a longer one loses its low bits, to nearest, ties to even. -/
def Dyadic.round53 (x : Dyadic) : Dyadic :=
  if x.man < 2 ^ 53 then x
  else
    ⟨roundHalfEven x.man (2 ^ (log2Floor x.man - 52)),
      x.exp + ((log2Floor x.man - 52 : Nat) : Int)⟩

/-- Conversion `float64(n)` of an integer magnitude. -/
def Dyadic.ofNat (n : Nat) : Dyadic := Dyadic.round53 ⟨n, 0⟩

/-- Float64 addition of two magnitudes of the same sign: the exact sum,
rounded. -/
def Dyadic.add (x y : Dyadic) : Dyadic :=
  Dyadic.round53
    ⟨x.man * 2 ^ (x.exp - min x.exp y.exp).toNat + y.man * 2 ^ (y.exp - min x.exp y.exp).toNat,
      min x.exp y.exp⟩

/-- The exponent `e` with `2 ^ e ≤ a / b < 2 ^ (e + 1)`, for `a, b > 0`. -/
def quotientExp (a b : Nat) : Int :=
  if b * 2 ^ ((log2Floor a : Int) - (log2Floor b : Int)).toNat ≤
      a * 2 ^ ((log2Floor b : Int) - (log2Floor a : Int)).toNat
  then (log2Floor a : Int) - (log2Floor b : Int)
  else (log2Floor a : Int) - (log2Floor b : Int) - 1

/-- Float64 division of two magnitudes (`y` not zero): the exact quotient
rounded to 53 bits. -/
def Dyadic.div (x y : Dyadic) : Dyadic :=
  if x.man = 0 then ⟨0, 0⟩
  else
    ⟨roundHalfEven (x.man * 2 ^ (52 - quotientExp x.man y.man).toNat)
        (y.man * 2 ^ (quotientExp x.man y.man - 52).toNat),
      quotientExp x.man y.man - 52 + x.exp - y.exp⟩

/-- The whole number `%.0f` prints for a magnitude: the nearest integer, ties
to even. -/
def Dyadic.roundToNat (x : Dyadic) : Nat :=
  roundHalfEven (x.man * 2 ^ x.exp.toNat) (2 ^ (-x.exp).toNat)

/-- The magnitude of `d.Seconds()`.  Go's `/` and `%` truncate toward zero, so
`sec` and `nsec` have the magnitudes `|d| / 1e9` and `|d| % 1e9` and both
carry the sign of `d`; float64 division and addition commute with negation,
so the magnitude of the result is computed from the magnitudes. -/
def secondsAbs (d : Int) : Dyadic :=
  Dyadic.add (Dyadic.ofNat (d.natAbs / 1000000000))
    (Dyadic.div (Dyadic.ofNat (d.natAbs % 1000000000)) (Dyadic.ofNat 1000000000))

/-- The whole number of seconds that `%.0f` prints for `d.Seconds()`, without
its sign. -/
def printedSeconds (d : Int) : Nat := (secondsAbs d).roundToNat

/-- Go's `fmt.Sprintf("%.0f", d.Seconds())`: a minus sign when the float64 is
negative, which it is exactly when `d` is (also when it rounds to zero: `-0`),
then the decimal digits of the rounded magnitude. -/
def fmtSeconds (d : Int) : List Char :=
  if d < 0 then '-' :: Nat.toDigits 10 (printedSeconds d)
  else Nat.toDigits 10 (printedSeconds d)

/-- The `windowStr` of source line 83,
`fmt.Sprintf("-%.0f seconds", window.Seconds())`. -/
def windowStr (window : Int) : List Char :=
  '-' :: (fmtSeconds window ++ " seconds".toList)

/-- Function `CullDatabase(db, window)`, the window being a `time.Duration` in
nanoseconds.  The error of `db.Begin()` is overwritten unread by the next
assignment to `err` (line 85) and the error of the second `tx.Prepare` (line
99) by the one after it (line 102), so the handles they come with are used
whether nil or not; a method called on a nil `*sql.Tx` or `*sql.Stmt` panics. -/
def CullDatabase (env : Env) (db : DB) (window : Int) : Final :=
  match Begin env ⟨db, []⟩ with
  | (c1, Except.error _) => ⟨Outcome.panicked, c1, none⟩
  | (c1, Except.ok tx) =>
    match Prepare env c1 tx Stmt.deleteNodes with
    | (c2, Except.error err) => ⟨Outcome.returned (some err), c2, some tx⟩
    | (c2, Except.ok _) =>
      match ExecDeleteNodes env c2 tx (windowStr window) with
      | (c3, tx3, some err) => ⟨Outcome.returned (some err), c3, some tx3⟩
      | (c3, tx3, none) =>
        match Prepare env c3 tx3 Stmt.deletePods with
        | (c4, Except.error _) => ⟨Outcome.panicked, c4, some tx3⟩
        | (c4, Except.ok _) =>
          match ExecDeletePods env c4 tx3 (windowStr window) with
          | (c5, tx5, some err) => ⟨Outcome.returned (some err), c5, some tx5⟩
          | (c5, tx5, none) => commitOrRollback env c5 tx5

/-! ## Relations and inputs used by the theorems -/

/-- Row `r` of table nodes holds what line 43 passes to `stmt.Exec` for item `v`. -/
def NodeRowFrom (v : NodeMetrics) (r : NodeRow) : Prop :=
  r.uid = v.UID ∧ r.name = v.Name ∧ r.cpu = v.Usage.Cpu.MilliValue ∧
    r.memory = v.Usage.Memory.MilliValue.tdiv 1000 ∧
    r.storage = v.Usage.StorageEphemeral.MilliValue.tdiv 1000

/-- Row `r` of table pods holds what line 57 passes to `stmt.Exec` for
container `u` of pod `v`. -/
def PodRowFrom (v : PodMetrics) (u : ContainerMetrics) (r : PodRow) : Prop :=
  r.uid = v.UID ∧ r.name = v.Name ∧ r.Namespace = v.Namespace ∧ r.container = u.Name ∧
    r.cpu = u.Usage.Cpu.MilliValue ∧
    r.memory = u.Usage.Memory.MilliValue.tdiv 1000 ∧
    r.storage = u.Usage.StorageEphemeral.MilliValue.tdiv 1000

/-- The containers of a pod list in the order the nested loops visit them,
each with its pod. -/
def containersOf (podMetrics : List PodMetrics) : List (PodMetrics × ContainerMetrics) :=
  podMetrics.flatMap (fun v => v.Containers.map (fun u => (v, u)))

/-- Only `Exec` calls. -/
def OnlyExec (l : List Call) : Prop := ∀ k ∈ l, k = Call.Exec

/-- How a milli-value `m` is stored in the memory and storage columns: divided
by 1000 with Go's truncating int64 division. -/
def StoredAs (m stored : Int) : Prop :=
  stored = m.tdiv 1000 ∧
  (|m| < 1000 → stored = 0) ∧
  (∀ q r : Int, 0 ≤ q → 0 ≤ r → r < 1000 → m = 1000 * q + r → stored = q) ∧
  (∀ q r : Int, 0 ≤ q → 0 ≤ r → r < 1000 → m = -(1000 * q + r) → stored = -q)

/-- An environment in which no call fails and the clock stands at `t`. -/
def healthy (t : Int) : Env := ⟨fun _ => none, fun _ => t⟩

/-- An environment in which call number `k` fails with `code`, no other call
fails, and the clock stands at `t`. -/
def failingAt (k code : Nat) (t : Int) : Env :=
  ⟨fun n => if n = k then some code else none, fun _ => t⟩

/-- An environment in which no call fails and the clock moves from 100 to 101
between the two delete statements of `CullDatabase` (calls 2 and 4). -/
def ticking : Env := ⟨fun _ => none, fun n => if n < 4 then 100 else 101⟩

/-- A node item: 250 milli-CPU, memory 2048000 and storage 999 in milli-units. -/
def nodeA : NodeMetrics := ⟨"uid-a", "node-a", ⟨⟨250⟩, ⟨2048000⟩, ⟨999⟩⟩⟩

/-- A second node item. -/
def nodeB : NodeMetrics := ⟨"uid-b", "node-b", ⟨⟨125⟩, ⟨1000⟩, ⟨5500⟩⟩⟩

/-- A node item whose memory milli-value is negative: -1500 = 1000 * (-2) + 500. -/
def nodeNeg : NodeMetrics := ⟨"uid-n", "node-n", ⟨⟨1⟩, ⟨-1500⟩, ⟨0⟩⟩⟩

/-- A pod item with two containers. -/
def podA : PodMetrics :=
  ⟨"uid-p", "pod-a", "kube-system",
    [⟨"main", ⟨⟨10⟩, ⟨3000⟩, ⟨0⟩⟩⟩, ⟨"sidecar", ⟨⟨5⟩, ⟨1999⟩, ⟨4000⟩⟩⟩]⟩

/-- The empty store. -/
def emptyDB : DB := ⟨[], []⟩

/-- A store with node and pod rows at times 10, 20 and 30. -/
def threeTimes : DB :=
  ⟨[⟨"uid-a", "node-a", 1, 1, 1, 10⟩, ⟨"uid-a", "node-a", 2, 2, 2, 20⟩,
      ⟨"uid-a", "node-a", 3, 3, 3, 30⟩],
    [⟨"uid-p", "pod-a", "default", "main", 1, 1, 1, 10⟩,
      ⟨"uid-p", "pod-a", "default", "main", 2, 2, 2, 20⟩,
      ⟨"uid-p", "pod-a", "default", "main", 3, 3, 3, 30⟩]⟩

/-- A store with one node row and one pod row, both at time 91. -/
def bothAt91 : DB :=
  ⟨[⟨"uid-a", "node-a", 1, 1, 1, 91⟩], [⟨"uid-p", "pod-a", "default", "main", 1, 1, 1, 91⟩]⟩

/-! ## The time modifier built by `CullDatabase` -/

theorem digitChar_isDigit (d : Nat) (h : d < 10) : (Nat.digitChar d).isDigit = true := by
  interval_cases d <;> decide

theorem digitChar_toNat (d : Nat) (h : d < 10) : (Nat.digitChar d).toNat - 48 = d := by
  interval_cases d <;> decide

/-- What `Nat.toDigitsCore` puts in front of its accumulator: a run of digits,
not empty, whose value is the number. -/
theorem toDigitsCore_spec (fuel : Nat) : ∀ n ds, n < fuel →
    ∃ xs, Nat.toDigitsCore 10 fuel n ds = xs ++ ds ∧ xs ≠ [] ∧
      (∀ ch ∈ xs, ch.isDigit = true) ∧
      ∀ a, xs.foldl (fun a ch => a * 10 + (ch.toNat - 48)) a = a * 10 ^ xs.length + n := by
  induction fuel with
  | zero => intro n ds h; omega
  | succ fuel ih =>
    intro n ds h
    have hd : n % 10 < 10 := Nat.mod_lt _ (by decide)
    unfold Nat.toDigitsCore
    by_cases h0 : n / 10 = 0
    · refine ⟨[Nat.digitChar (n % 10)], ?_, by simp, ?_, ?_⟩
      · simp [h0]
      · intro ch hch
        simp at hch
        subst hch
        exact digitChar_isDigit _ hd
      · intro a
        simp [digitChar_toNat _ hd]
        omega
    · have hlt : n / 10 < fuel := by omega
      obtain ⟨xs, hxs, hne, hdig, hval⟩ := ih (n / 10) (Nat.digitChar (n % 10) :: ds) hlt
      refine ⟨xs ++ [Nat.digitChar (n % 10)], ?_, by simp, ?_, ?_⟩
      · simp [h0, hxs]
      · intro ch hch
        rcases List.mem_append.mp hch with h1 | h1
        · exact hdig ch h1
        · simp at h1
          subst h1
          exact digitChar_isDigit _ hd
      · intro a
        simp [List.foldl_append, hval, digitChar_toNat _ hd, pow_succ]
        have := Nat.div_add_mod n 10
        nlinarith [this]

theorem takeWhile_digits (xs rest : List Char) (h : ∀ ch ∈ xs, ch.isDigit = true) :
    (xs ++ ' ' :: rest).takeWhile Char.isDigit = xs := by
  induction xs with
  | nil => simp [List.takeWhile]
  | cons x xs ih =>
    have hx := h x (by simp)
    simp [List.takeWhile, hx]
    exact ih (fun ch hch => h ch (by simp [hch]))

theorem dropWhile_digits (xs rest : List Char) (h : ∀ ch ∈ xs, ch.isDigit = true) :
    (xs ++ ' ' :: rest).dropWhile Char.isDigit = ' ' :: rest := by
  induction xs with
  | nil => simp [List.dropWhile]
  | cons x xs ih =>
    have hx := h x (by simp)
    simp [List.dropWhile, hx]
    exact ih (fun ch hch => h ch (by simp [hch]))

/-- A modifier made of a minus sign, the decimal digits of `n` and ` seconds`
subtracts `n` seconds. -/
theorem parseModifier_minus_digits (n : Nat) :
    parseModifier ('-' :: (Nat.toDigits 10 n ++ " seconds".toList)) = some (-(n : Int)) := by
  obtain ⟨xs, hxs, hne, hdig, hval⟩ := toDigitsCore_spec (n + 1) n [] (Nat.lt_succ_self n)
  have hx : Nat.toDigits 10 n = xs := by simpa [Nat.toDigits] using hxs
  have hv : digitsValue xs = n := by simpa [digitsValue] using hval 0
  have e : " seconds".toList = ' ' :: "seconds".toList := by decide
  simp only [parseModifier, hx, e, takeWhile_digits xs _ hdig, dropWhile_digits xs _ hdig]
  simp [hne, hv]

/-- A modifier that starts with two minus signs is not a modifier. -/
theorem parseModifier_minus_minus (rest : List Char) :
    parseModifier ('-' :: '-' :: rest) = none := by
  simp [parseModifier, List.takeWhile]

theorem windowStr_of_nonneg (window : Int) (h : 0 ≤ window) :
    windowStr window =
      '-' :: (Nat.toDigits 10 (printedSeconds window) ++ " seconds".toList) := by
  simp [windowStr, fmtSeconds, not_lt.mpr h]

theorem windowStr_of_neg (window : Int) (h : window < 0) :
    windowStr window =
      '-' :: '-' :: (Nat.toDigits 10 (printedSeconds window) ++ " seconds".toList) := by
  simp [windowStr, fmtSeconds, h]

/-- The cutoff a delete statement computes from `windowStr` when the clock
reads `now`: `now` less the printed seconds for a window that is not
negative, and NULL for a negative one. -/
theorem datetimeNow_windowStr (now window : Int) :
    datetimeNow now (windowStr window) =
      if 0 ≤ window then some (now - (printedSeconds window : Int)) else none := by
  by_cases h : 0 ≤ window
  · rw [windowStr_of_nonneg window h, datetimeNow, parseModifier_minus_digits]
    simp only [Option.map_some', h, if_true]
    congr 1
  · rw [windowStr_of_neg window (not_le.mp h), datetimeNow, parseModifier_minus_minus]
    simp [h]

/-- A window of `w` whole seconds prints as `|w|`: the float64 holds it
exactly. -/
theorem printedSeconds_whole (w : Int) (h : IsDuration (w * Second)) :
    printedSeconds (w * Second) = w.natAbs := by
  have hb : w.natAbs < 9007199254740992 := by
    unfold IsDuration Second at h
    omega
  have e1 : (w * Second).natAbs / 1000000000 = w.natAbs := by
    simp [Second, Int.natAbs_mul]
  have e2 : (w * Second).natAbs % 1000000000 = 0 := by
    simp [Second, Int.natAbs_mul]
  have z : Dyadic.div (Dyadic.ofNat 0) (Dyadic.ofNat 1000000000) = ⟨0, 0⟩ := by decide
  have o : Dyadic.ofNat w.natAbs = ⟨w.natAbs, 0⟩ := by
    simp [Dyadic.ofNat, Dyadic.round53, hb]
  unfold printedSeconds secondsAbs
  rw [e1, e2, z, o]
  simp [Dyadic.add, Dyadic.round53, hb, Dyadic.roundToNat, roundHalfEven, Nat.mod_one]

/-! ## CullDatabase, path by path -/

/-- With a cutoff that is not NULL, a delete keeps the rows later than it. -/
theorem filter_cutoff_some {α : Type} (time : α → Int) (rows : List α) (t : Int) :
    rows.filter (fun r => !(timeLeCutoff (time r) (some t))) =
      rows.filter (fun r => decide (t < time r)) := by
  apply List.filter_congr
  intro r _
  by_cases h : time r ≤ t
  · simp [timeLeCutoff, h]
  · simp [timeLeCutoff, h, not_le.mp h]

/-- With a NULL cutoff a delete keeps every row. -/
theorem filter_cutoff_none {α : Type} (time : α → Int) (rows : List α) :
    rows.filter (fun r => !(timeLeCutoff (time r) none)) = rows := by
  simp [timeLeCutoff]

theorem CullDatabase_of_noFault (env : Env) (db : DB) (window : Int)
    (h : ∀ n, n < 6 → env.fault n = none) :
    CullDatabase env db window =
      ⟨Outcome.returned none,
        ⟨⟨db.nodes.filter
            (fun r => !(timeLeCutoff r.time (datetimeNow (env.now 2) (windowStr window)))),
          db.pods.filter
            (fun r => !(timeLeCutoff r.time (datetimeNow (env.now 4) (windowStr window))))⟩,
          [Call.Begin, Call.Prepare, Call.Exec, Call.Prepare, Call.Exec, Call.Commit]⟩,
        some ⟨db.nodes.filter
            (fun r => !(timeLeCutoff r.time (datetimeNow (env.now 2) (windowStr window)))),
          db.pods.filter
            (fun r => !(timeLeCutoff r.time (datetimeNow (env.now 4) (windowStr window)))), true⟩⟩ := by
  simp [CullDatabase, Begin, Prepare, ExecDeleteNodes, ExecDeletePods, commitOrRollback, Commit,
    Conn.call, h 0, h 1, h 2, h 3, h 4, h 5]

theorem CullDatabase_noFault_of_success (env : Env) (db : DB) (window : Int)
    (h : (CullDatabase env db window).outcome = Outcome.returned none) :
    ∀ n, n < 6 → env.fault n = none := by
  intro n hn
  revert h
  cases h0 : env.fault 0 <;> cases h1 : env.fault 1 <;> cases h2 : env.fault 2 <;>
    cases h3 : env.fault 3 <;> cases h4 : env.fault 4 <;> cases h5 : env.fault 5 <;>
    simp [CullDatabase, Begin, Prepare, ExecDeleteNodes, ExecDeletePods, commitOrRollback, Commit,
      Rollback, Conn.call, h0, h1, h2, h3, h4, h5]
  interval_cases n <;> assumption

theorem CullDatabase_db_of_failure (env : Env) (db : DB) (window : Int)
    (h : (CullDatabase env db window).outcome ≠ Outcome.returned none) :
    (CullDatabase env db window).conn.db = db := by
  revert h
  cases h0 : env.fault 0 <;> cases h1 : env.fault 1 <;> cases h2 : env.fault 2 <;>
    cases h3 : env.fault 3 <;> cases h4 : env.fault 4 <;> cases h5 : env.fault 5 <;>
    simp [CullDatabase, Begin, Prepare, ExecDeleteNodes, ExecDeletePods, commitOrRollback, Commit,
      Rollback, Conn.call, h0, h1, h2, h3, h4, h5]


/-! ## UpdateDatabase: the insert loops -/

theorem insertNodeItems_cons_fault (env : Env) (v : NodeMetrics) (rest : List NodeMetrics)
    (c : Conn) (tn : List NodeRow) (tp : List PodRow) (code : Nat)
    (hf : env.fault c.calls.length = some code) :
    insertNodeItems env (v :: rest) c ⟨tn, tp, false⟩ =
      (⟨c.db, c.calls ++ [Call.Exec]⟩, ⟨tn, tp, false⟩, some (Err.driver code)) := by
  simp [insertNodeItems, ExecInsertNode, hf, Conn.call]

theorem insertNodeItems_cons_ok (env : Env) (v : NodeMetrics) (rest : List NodeMetrics)
    (c : Conn) (tn : List NodeRow) (tp : List PodRow)
    (hf : env.fault c.calls.length = none) :
    insertNodeItems env (v :: rest) c ⟨tn, tp, false⟩ =
      insertNodeItems env rest ⟨c.db, c.calls ++ [Call.Exec]⟩
        ⟨tn ++ [⟨v.UID, v.Name, v.Usage.Cpu.MilliValue, v.Usage.Memory.MilliValue.tdiv 1000,
          v.Usage.StorageEphemeral.MilliValue.tdiv 1000, env.now c.calls.length⟩], tp, false⟩ := by
  simp [insertNodeItems, ExecInsertNode, hf, Conn.call]

theorem insertNodeItems_spec (env : Env) (items : List NodeMetrics) :
    ∀ (c : Conn) (tx : Tx), tx.done = false →
      (insertNodeItems env items c tx).1.db = c.db ∧
      (insertNodeItems env items c tx).2.1.done = false ∧
      (insertNodeItems env items c tx).2.1.pods = tx.pods ∧
      (∃ l, (insertNodeItems env items c tx).1.calls = c.calls ++ l ∧ OnlyExec l) ∧
      (∀ e, (insertNodeItems env items c tx).2.2 = some e → ∃ code, e = Err.driver code) ∧
      ((insertNodeItems env items c tx).2.2 = none →
        ∃ rows, (insertNodeItems env items c tx).2.1.nodes = tx.nodes ++ rows ∧
          List.Forall₂ NodeRowFrom items rows) := by
  induction items with
  | nil =>
    intro c tx _
    exact ⟨rfl, by assumption, rfl, ⟨[], by simp [insertNodeItems], by simp [OnlyExec]⟩,
      by simp [insertNodeItems], fun _ => ⟨[], by simp [insertNodeItems], List.Forall₂.nil⟩⟩
  | cons v rest ih =>
    intro c tx hd
    obtain ⟨tn, tp, td⟩ := tx
    simp only at hd
    subst hd
    cases hf : env.fault c.calls.length with
    | some code =>
      rw [insertNodeItems_cons_fault env v rest c tn tp code hf]
      refine ⟨rfl, rfl, rfl, ⟨[Call.Exec], rfl, by simp [OnlyExec]⟩, ?_, by simp⟩
      intro e he
      exact ⟨code, by simpa using he.symm⟩
    | none =>
      rw [insertNodeItems_cons_ok env v rest c tn tp hf]
      obtain ⟨h1, h2, h3, ⟨l, h4, h4e⟩, h5, h6⟩ := ih ⟨c.db, c.calls ++ [Call.Exec]⟩
        ⟨tn ++ [⟨v.UID, v.Name, v.Usage.Cpu.MilliValue, v.Usage.Memory.MilliValue.tdiv 1000,
          v.Usage.StorageEphemeral.MilliValue.tdiv 1000, env.now c.calls.length⟩], tp, false⟩ rfl
      refine ⟨h1, h2, h3, ⟨Call.Exec :: l, by simpa using h4, ?_⟩, h5, ?_⟩
      · intro k hk
        rcases List.mem_cons.mp hk with hk | hk
        · exact hk
        · exact h4e k hk
      · intro hnone
        obtain ⟨rows, hr, hrel⟩ := h6 hnone
        exact ⟨_ :: rows, by simpa using hr, List.Forall₂.cons ⟨rfl, rfl, rfl, rfl, rfl⟩ hrel⟩

theorem insertContainers_cons_fault (env : Env) (v : PodMetrics) (u : ContainerMetrics)
    (rest : List ContainerMetrics) (c : Conn) (tn : List NodeRow) (tp : List PodRow) (code : Nat)
    (hf : env.fault c.calls.length = some code) :
    insertContainers env v (u :: rest) c ⟨tn, tp, false⟩ =
      (⟨c.db, c.calls ++ [Call.Exec]⟩, ⟨tn, tp, false⟩, some (Err.driver code)) := by
  simp [insertContainers, ExecInsertPod, hf, Conn.call]

theorem insertContainers_cons_ok (env : Env) (v : PodMetrics) (u : ContainerMetrics)
    (rest : List ContainerMetrics) (c : Conn) (tn : List NodeRow) (tp : List PodRow)
    (hf : env.fault c.calls.length = none) :
    insertContainers env v (u :: rest) c ⟨tn, tp, false⟩ =
      insertContainers env v rest ⟨c.db, c.calls ++ [Call.Exec]⟩
        ⟨tn, tp ++ [⟨v.UID, v.Name, v.Namespace, u.Name, u.Usage.Cpu.MilliValue,
          u.Usage.Memory.MilliValue.tdiv 1000, u.Usage.StorageEphemeral.MilliValue.tdiv 1000,
          env.now c.calls.length⟩], false⟩ := by
  simp [insertContainers, ExecInsertPod, hf, Conn.call]

theorem insertContainers_spec (env : Env) (v : PodMetrics) (items : List ContainerMetrics) :
    ∀ (c : Conn) (tx : Tx), tx.done = false →
      (insertContainers env v items c tx).1.db = c.db ∧
      (insertContainers env v items c tx).2.1.done = false ∧
      (insertContainers env v items c tx).2.1.nodes = tx.nodes ∧
      (∃ l, (insertContainers env v items c tx).1.calls = c.calls ++ l ∧ OnlyExec l) ∧
      (∀ e, (insertContainers env v items c tx).2.2 = some e → ∃ code, e = Err.driver code) ∧
      ((insertContainers env v items c tx).2.2 = none →
        ∃ rows, (insertContainers env v items c tx).2.1.pods = tx.pods ++ rows ∧
          List.Forall₂ (PodRowFrom v) items rows) := by
  induction items with
  | nil =>
    intro c tx _
    exact ⟨rfl, by assumption, rfl, ⟨[], by simp [insertContainers], by simp [OnlyExec]⟩,
      by simp [insertContainers], fun _ => ⟨[], by simp [insertContainers], List.Forall₂.nil⟩⟩
  | cons u rest ih =>
    intro c tx hd
    obtain ⟨tn, tp, td⟩ := tx
    simp only at hd
    subst hd
    cases hf : env.fault c.calls.length with
    | some code =>
      rw [insertContainers_cons_fault env v u rest c tn tp code hf]
      refine ⟨rfl, rfl, rfl, ⟨[Call.Exec], rfl, by simp [OnlyExec]⟩, ?_, by simp⟩
      intro e he
      exact ⟨code, by simpa using he.symm⟩
    | none =>
      rw [insertContainers_cons_ok env v u rest c tn tp hf]
      obtain ⟨h1, h2, h3, ⟨l, h4, h4e⟩, h5, h6⟩ := ih ⟨c.db, c.calls ++ [Call.Exec]⟩
        ⟨tn, tp ++ [⟨v.UID, v.Name, v.Namespace, u.Name, u.Usage.Cpu.MilliValue,
          u.Usage.Memory.MilliValue.tdiv 1000, u.Usage.StorageEphemeral.MilliValue.tdiv 1000,
          env.now c.calls.length⟩], false⟩ rfl
      refine ⟨h1, h2, h3, ⟨Call.Exec :: l, by simpa using h4, ?_⟩, h5, ?_⟩
      · intro k hk
        rcases List.mem_cons.mp hk with hk | hk
        · exact hk
        · exact h4e k hk
      · intro hnone
        obtain ⟨rows, hr, hrel⟩ := h6 hnone
        exact ⟨_ :: rows, by simpa using hr,
          List.Forall₂.cons ⟨rfl, rfl, rfl, rfl, rfl, rfl, rfl⟩ hrel⟩

theorem forall₂_append {α β : Type} (R : α → β → Prop) :
    ∀ (l1 : List α) (r1 : List β) (l2 : List α) (r2 : List β),
      List.Forall₂ R l1 r1 → List.Forall₂ R l2 r2 → List.Forall₂ R (l1 ++ l2) (r1 ++ r2)
  | _, _, _, _, List.Forall₂.nil, h => h
  | _, _, l2, r2, List.Forall₂.cons h t, h2 =>
    List.Forall₂.cons h (forall₂_append R _ _ l2 r2 t h2)

theorem forall₂_map_pair {α β γ : Type} (a : α) (R : α → β → γ → Prop) :
    ∀ (l : List β) (r : List γ), List.Forall₂ (R a) l r →
      List.Forall₂ (fun p x => R p.1 p.2 x) (l.map (fun u => (a, u))) r
  | _, _, List.Forall₂.nil => List.Forall₂.nil
  | _, _, List.Forall₂.cons h t => List.Forall₂.cons h (forall₂_map_pair a R _ _ t)

theorem insertPodItems_spec (env : Env) (items : List PodMetrics) :
    ∀ (c : Conn) (tx : Tx), tx.done = false →
      (insertPodItems env items c tx).1.db = c.db ∧
      (insertPodItems env items c tx).2.1.done = false ∧
      (insertPodItems env items c tx).2.1.nodes = tx.nodes ∧
      (∃ l, (insertPodItems env items c tx).1.calls = c.calls ++ l ∧ OnlyExec l) ∧
      (∀ e, (insertPodItems env items c tx).2.2 = some e → ∃ code, e = Err.driver code) ∧
      ((insertPodItems env items c tx).2.2 = none →
        ∃ rows, (insertPodItems env items c tx).2.1.pods = tx.pods ++ rows ∧
          List.Forall₂ (fun p r => PodRowFrom p.1 p.2 r) (containersOf items) rows) := by
  induction items with
  | nil =>
    intro c tx _
    exact ⟨rfl, by assumption, rfl, ⟨[], by simp [insertPodItems], by simp [OnlyExec]⟩,
      by simp [insertPodItems],
      fun _ => ⟨[], by simp [insertPodItems], by simp [containersOf]⟩⟩
  | cons v rest ih =>
    intro c tx hd
    obtain ⟨g1, g2, g3, ⟨l1, g4, g4e⟩, g5, g6⟩ := insertContainers_spec env v v.Containers c tx hd
    rcases hR : insertContainers env v v.Containers c tx with ⟨c1, tx1, r1⟩
    rw [hR] at g1 g2 g3 g4 g5 g6
    simp only at g1 g2 g3 g4 g5 g6
    cases r1 with
    | some e =>
      simp only [insertPodItems, hR]
      exact ⟨g1, g2, g3, ⟨l1, g4, g4e⟩, g5, by simp⟩
    | none =>
      simp only [insertPodItems, hR]
      obtain ⟨h1, h2, h3, ⟨l, h4, h4e⟩, h5, h6⟩ := ih c1 tx1 g2
      obtain ⟨rows1, hr1, hrel1⟩ := g6 rfl
      refine ⟨h1.trans g1, h2, h3.trans g3, ⟨l1 ++ l, ?_, ?_⟩, h5, ?_⟩
      · rw [h4, g4, List.append_assoc]
      · intro k hk
        rcases List.mem_append.mp hk with hk | hk
        · exact g4e k hk
        · exact h4e k hk
      · intro hnone
        obtain ⟨rows, hr, hrel⟩ := h6 hnone
        refine ⟨rows1 ++ rows, ?_, ?_⟩
        · rw [hr, hr1, List.append_assoc]
        · have : containersOf (v :: rest) =
              v.Containers.map (fun u => (v, u)) ++ containersOf rest := by
            simp [containersOf]
          rw [this]
          exact forall₂_append _ _ _ _ _ (forall₂_map_pair v PodRowFrom _ _ hrel1) hrel


/-! ## UpdateDatabase, path by path -/

theorem OnlyExec.not_commit {l : List Call} (h : OnlyExec l) : Call.Commit ∉ l := by
  intro hm
  have := h _ hm
  cases this

theorem OnlyExec.not_rollback {l : List Call} (h : OnlyExec l) : Call.Rollback ∉ l := by
  intro hm
  have := h _ hm
  cases this

/-- The ways `UpdateDatabase` ends.  Either it commits: the persisted tables
are the old ones followed by one row per node item and one per container, and
`Commit` is its last and only call of that name.  Or it returns early with the
error of `Begin`, of a `Prepare` or of an `Exec`: the persisted tables are
untouched, neither `Commit` nor `Rollback` has been called, and a transaction
that was begun is not done.  Or `Commit` failed: the persisted tables are
untouched, `Rollback` has been called on the handle that `Commit` made done,
and the error returned is `sql.ErrTxDone`. -/
theorem UpdateDatabase_paths (env : Env) (db : DB) (ns : List NodeMetrics)
    (ps : List PodMetrics) :
    ((UpdateDatabase env db ns ps).outcome = Outcome.returned none ∧
      ∃ nrows prows pre,
        (UpdateDatabase env db ns ps).conn.db = ⟨db.nodes ++ nrows, db.pods ++ prows⟩ ∧
        List.Forall₂ NodeRowFrom ns nrows ∧
        List.Forall₂ (fun p r => PodRowFrom p.1 p.2 r) (containersOf ps) prows ∧
        (UpdateDatabase env db ns ps).conn.calls = pre ++ [Call.Commit] ∧
        Call.Commit ∉ pre ∧ Call.Rollback ∉ pre ∧
        ∃ tx, (UpdateDatabase env db ns ps).tx = some tx ∧ tx.done = true) ∨
    ((∃ code, (UpdateDatabase env db ns ps).outcome = Outcome.returned (some (Err.driver code))) ∧
      (UpdateDatabase env db ns ps).conn.db = db ∧
      Call.Commit ∉ (UpdateDatabase env db ns ps).conn.calls ∧
      Call.Rollback ∉ (UpdateDatabase env db ns ps).conn.calls ∧
      (∀ tx, (UpdateDatabase env db ns ps).tx = some tx → tx.done = false) ∧
      (env.fault 0 = none → ∃ tx, (UpdateDatabase env db ns ps).tx = some tx)) ∨
    ((UpdateDatabase env db ns ps).outcome = Outcome.returned (some Err.ErrTxDone) ∧
      (UpdateDatabase env db ns ps).conn.db = db ∧
      ∃ pre code, (UpdateDatabase env db ns ps).conn.calls = pre ++ [Call.Commit, Call.Rollback] ∧
        Call.Commit ∉ pre ∧ Call.Rollback ∉ pre ∧ env.fault pre.length = some code ∧
        ∃ tx, (UpdateDatabase env db ns ps).tx = some tx ∧ tx.done = true) := by
  unfold UpdateDatabase
  cases h0 : env.fault 0 with
  | some code0 =>
    right; left
    simp [Begin, h0, Conn.call]
  | none =>
    cases h1 : env.fault 1 with
    | some code1 =>
      right; left
      simp [Begin, Prepare, h0, h1, Conn.call]
    | none =>
      simp only [Begin, Prepare, h0, h1, Conn.call, List.length_nil, List.nil_append,
        List.length_cons, List.length_singleton, Bool.false_eq_true, if_false,
        List.cons_append, List.singleton_append, zero_add]
      obtain ⟨a1, a2, a3, ⟨la, a4, a4e⟩, a5, a6⟩ := insertNodeItems_spec env ns
        ⟨db, [Call.Begin, Call.Prepare]⟩ ⟨db.nodes, db.pods, false⟩ rfl
      rcases hA : insertNodeItems env ns ⟨db, [Call.Begin, Call.Prepare]⟩
        ⟨db.nodes, db.pods, false⟩ with ⟨c3, tx3, r3⟩
      rw [hA] at a1 a2 a3 a4 a5 a6
      simp only at a1 a2 a3 a4 a5 a6
      obtain ⟨db3, calls3⟩ := c3
      obtain ⟨tn3, tp3, td3⟩ := tx3
      simp only at a1 a2 a3 a4
      subst a1 a2 a3 a4
      cases r3 with
      | some e =>
        obtain ⟨code, rfl⟩ := a5 e rfl
        right; left
        simp [h0, a4e.not_commit, a4e.not_rollback]
      | none =>
        obtain ⟨nrows, hn, hnrel⟩ := a6 rfl
        subst hn
        simp only [List.cons_append, List.nil_append, List.length_cons, Bool.false_eq_true,
          if_false]
        cases h4 : env.fault (la.length + 1 + 1) with
        | some code4 =>
          right; left
          simp [h0, h4, a4e.not_commit, a4e.not_rollback]
        | none =>
          simp only [h4]
          obtain ⟨b1, b2, b3, ⟨lb, b4, b4e⟩, b5, b6⟩ := insertPodItems_spec env ps
            ⟨db3, Call.Begin :: Call.Prepare :: (la ++ [Call.Prepare])⟩
            ⟨db3.nodes ++ nrows, db3.pods, false⟩ rfl
          rcases hB : insertPodItems env ps
            ⟨db3, Call.Begin :: Call.Prepare :: (la ++ [Call.Prepare])⟩
            ⟨db3.nodes ++ nrows, db3.pods, false⟩ with ⟨c5, tx5, r5⟩
          rw [hB] at b1 b2 b3 b4 b5 b6
          simp only at b1 b2 b3 b4 b5 b6
          obtain ⟨db5, calls5⟩ := c5
          obtain ⟨tn5, tp5, td5⟩ := tx5
          simp only at b1 b2 b3 b4
          subst b1 b2 b3 b4
          have hc : Call.Commit ∉ Call.Begin :: Call.Prepare :: (la ++ [Call.Prepare]) ++ lb := by
            simp [a4e.not_commit, b4e.not_commit]
          have hr : Call.Rollback ∉ Call.Begin :: Call.Prepare :: (la ++ [Call.Prepare]) ++ lb := by
            simp [a4e.not_rollback, b4e.not_rollback]
          generalize Call.Begin :: Call.Prepare :: (la ++ [Call.Prepare]) ++ lb = pre at hc hr hB ⊢
          cases r5 with
          | some e =>
            obtain ⟨code, rfl⟩ := b5 e rfl
            right; left
            simp [h0, hc, hr]
          | none =>
            obtain ⟨prows, hp, hprel⟩ := b6 rfl
            simp only at hp
            subst hp
            cases h6 : env.fault pre.length with
            | some code6 =>
              right; right
              simp only [commitOrRollback, Commit, Rollback, h6, Conn.call, Bool.false_eq_true,
                if_false, if_true]
              exact ⟨trivial, trivial, pre, code6, by simp, hc, hr, h6, ⟨_, rfl, rfl⟩⟩
            | none =>
              left
              simp only [commitOrRollback, Commit, h6, Conn.call, Bool.false_eq_true, if_false]
              exact ⟨trivial, nrows, prows, pre, rfl, hnrel, hprel, rfl, hc, hr, ⟨_, rfl, rfl⟩⟩


/-! ## Facts shared by the theorems below -/

theorem forall₂_map_eq {α β γ : Type} {R : α → β → Prop} (f : α → γ) (g : β → γ)
    (h : ∀ a b, R a b → f a = g b) :
    ∀ (l : List α) (r : List β), List.Forall₂ R l r → l.map f = r.map g
  | _, _, List.Forall₂.nil => rfl
  | _, _, List.Forall₂.cons hab t => by
    simp [h _ _ hab, forall₂_map_eq f g h _ _ t]

theorem forall₂_imp {α β : Type} {R S : α → β → Prop} (h : ∀ a b, R a b → S a b) :
    ∀ (l : List α) (r : List β), List.Forall₂ R l r → List.Forall₂ S l r
  | _, _, List.Forall₂.nil => List.Forall₂.nil
  | _, _, List.Forall₂.cons hab t => List.Forall₂.cons (h _ _ hab) (forall₂_imp h _ _ t)

theorem forall₂_length {α β : Type} {R : α → β → Prop} :
    ∀ (l : List α) (r : List β), List.Forall₂ R l r → r.length = l.length
  | _, _, List.Forall₂.nil => rfl
  | _, _, List.Forall₂.cons _ t => by simp [forall₂_length _ _ t]

theorem containersOf_length (ps : List PodMetrics) :
    (containersOf ps).length = (ps.map (fun v => v.Containers.length)).sum := by
  induction ps with
  | nil => rfl
  | cons v rest ih =>
    have : containersOf (v :: rest) =
        v.Containers.map (fun u => (v, u)) ++ containersOf rest := by
      simp [containersOf]
    simp [this, ih]

theorem containersOf_map_key (ps : List PodMetrics) :
    (containersOf ps).map (fun p => (p.1.UID, p.1.Name, p.1.Namespace, p.2.Name)) =
      ps.flatMap (fun v => v.Containers.map (fun u => (v.UID, v.Name, v.Namespace, u.Name))) := by
  induction ps with
  | nil => rfl
  | cons v rest ih =>
    have : containersOf (v :: rest) =
        v.Containers.map (fun u => (v, u)) ++ containersOf rest := by
      simp [containersOf]
    rw [this, List.map_append, ih]
    simp [List.flatMap_cons, Function.comp_def]

/-- What a successful `UpdateDatabase` leaves in the persisted tables. -/
theorem UpdateDatabase_success (env : Env) (db : DB) (ns : List NodeMetrics)
    (ps : List PodMetrics)
    (h : (UpdateDatabase env db ns ps).outcome = Outcome.returned none) :
    ∃ nrows prows pre,
      (UpdateDatabase env db ns ps).conn.db = ⟨db.nodes ++ nrows, db.pods ++ prows⟩ ∧
      List.Forall₂ NodeRowFrom ns nrows ∧
      List.Forall₂ (fun p r => PodRowFrom p.1 p.2 r) (containersOf ps) prows ∧
      (UpdateDatabase env db ns ps).conn.calls = pre ++ [Call.Commit] ∧
      Call.Commit ∉ pre ∧ Call.Rollback ∉ pre := by
  rcases UpdateDatabase_paths env db ns ps with
    ⟨_, nrows, prows, pre, h1, h2, h3, h4, h5, h6, _⟩ | ⟨⟨code, hc⟩, _⟩ | ⟨hc, _⟩
  · exact ⟨nrows, prows, pre, h1, h2, h3, h4, h5, h6⟩
  · rw [hc] at h; cases h
  · rw [hc] at h; cases h

/-- What an early return of `UpdateDatabase` leaves behind. -/
theorem UpdateDatabase_driver_error (env : Env) (db : DB) (ns : List NodeMetrics)
    (ps : List PodMetrics) (code : Nat)
    (h : (UpdateDatabase env db ns ps).outcome = Outcome.returned (some (Err.driver code))) :
    (UpdateDatabase env db ns ps).conn.db = db ∧
    Call.Commit ∉ (UpdateDatabase env db ns ps).conn.calls ∧
    Call.Rollback ∉ (UpdateDatabase env db ns ps).conn.calls ∧
    (∀ tx, (UpdateDatabase env db ns ps).tx = some tx → tx.done = false) ∧
    (env.fault 0 = none → ∃ tx, (UpdateDatabase env db ns ps).tx = some tx) := by
  rcases UpdateDatabase_paths env db ns ps with ⟨hc, _⟩ | ⟨_, h1, h2, h3, h4, h5⟩ | ⟨hc, _⟩
  · rw [hc] at h; cases h
  · exact ⟨h1, h2, h3, h4, h5⟩
  · rw [hc] at h; cases h

/-- What `UpdateDatabase` returns once it has called `Rollback`. -/
theorem UpdateDatabase_rollback (env : Env) (db : DB) (ns : List NodeMetrics)
    (ps : List PodMetrics)
    (h : Call.Rollback ∈ (UpdateDatabase env db ns ps).conn.calls) :
    (UpdateDatabase env db ns ps).outcome = Outcome.returned (some Err.ErrTxDone) ∧
    (UpdateDatabase env db ns ps).conn.db = db ∧
    ∃ pre code, (UpdateDatabase env db ns ps).conn.calls = pre ++ [Call.Commit, Call.Rollback] ∧
      Call.Commit ∉ pre ∧ Call.Rollback ∉ pre ∧ env.fault pre.length = some code := by
  rcases UpdateDatabase_paths env db ns ps with
    ⟨_, _, _, pre, _, _, _, h4, _, h6, _⟩ | ⟨_, _, _, h3, _⟩ | ⟨hc, hdb, pre, code, h1, h2, h3, h4, _⟩
  · rw [h4] at h
    simp [h6] at h
  · exact absurd h h3
  · exact ⟨hc, hdb, pre, code, h1, h2, h3, h4⟩

/-- The ways `CullDatabase` ends, by the first call that fails. -/
theorem CullDatabase_paths (env : Env) (db : DB) (window : Int) :
    ((CullDatabase env db window).outcome = Outcome.returned none ∧
      (∀ n, n < 6 → env.fault n = none) ∧
      (CullDatabase env db window).conn.calls =
        [Call.Begin, Call.Prepare, Call.Exec, Call.Prepare, Call.Exec, Call.Commit]) ∨
    ((CullDatabase env db window).outcome = Outcome.panicked ∧
      (CullDatabase env db window).conn.db = db ∧
      ((∃ code, env.fault 0 = some code) ∨ (∃ code, env.fault 3 = some code)) ∧
      Call.Commit ∉ (CullDatabase env db window).conn.calls ∧
      Call.Rollback ∉ (CullDatabase env db window).conn.calls) ∨
    ((∃ code, (CullDatabase env db window).outcome = Outcome.returned (some (Err.driver code))) ∧
      (CullDatabase env db window).conn.db = db ∧
      Call.Commit ∉ (CullDatabase env db window).conn.calls ∧
      Call.Rollback ∉ (CullDatabase env db window).conn.calls ∧
      ∃ tx, (CullDatabase env db window).tx = some tx ∧ tx.done = false) ∨
    ((CullDatabase env db window).outcome = Outcome.returned (some Err.ErrTxDone) ∧
      (CullDatabase env db window).conn.db = db ∧
      (∃ code, env.fault 5 = some code) ∧
      (CullDatabase env db window).conn.calls =
        [Call.Begin, Call.Prepare, Call.Exec, Call.Prepare, Call.Exec, Call.Commit,
          Call.Rollback]) := by
  cases h0 : env.fault 0 <;> cases h1 : env.fault 1 <;> cases h2 : env.fault 2 <;>
    cases h3 : env.fault 3 <;> cases h4 : env.fault 4 <;> cases h5 : env.fault 5 <;>
    simp [CullDatabase, Begin, Prepare, ExecDeleteNodes, ExecDeletePods, commitOrRollback, Commit,
      Rollback, Conn.call, h0, h1, h2, h3, h4, h5]
  intro n hn
  interval_cases n <;> assumption


/-- The persisted tables after a successful `CullDatabase` with a window that
is not negative: each table keeps the rows later than its own cutoff, the
clock at its delete statement less the printed seconds. -/
theorem CullDatabase_success_nonneg (env : Env) (db : DB) (window : Int) (hw : 0 ≤ window)
    (h : (CullDatabase env db window).outcome = Outcome.returned none) :
    (CullDatabase env db window).conn.db =
      ⟨db.nodes.filter (fun r => decide (env.now 2 - (printedSeconds window : Int) < r.time)),
        db.pods.filter (fun r => decide (env.now 4 - (printedSeconds window : Int) < r.time))⟩ := by
  rw [CullDatabase_of_noFault env db window (CullDatabase_noFault_of_success env db window h)]
  simp only [datetimeNow_windowStr, hw, if_true]
  rw [filter_cutoff_some NodeRow.time, filter_cutoff_some PodRow.time]

/-- The persisted tables after a successful `CullDatabase` with a negative
window: nothing is deleted. -/
theorem CullDatabase_success_neg (env : Env) (db : DB) (window : Int) (hw : window < 0)
    (h : (CullDatabase env db window).outcome = Outcome.returned none) :
    (CullDatabase env db window).conn.db = db := by
  rw [CullDatabase_of_noFault env db window (CullDatabase_noFault_of_success env db window h)]
  simp only [datetimeNow_windowStr, not_le.mpr hw, if_false]
  rw [filter_cutoff_none NodeRow.time, filter_cutoff_none PodRow.time]

/-- The persisted tables after a successful `CullDatabase` with a window of
`w ≥ 0` whole seconds. -/
theorem CullDatabase_success_whole (env : Env) (db : DB) (w : Int) (hw : 0 ≤ w)
    (hr : IsDuration (w * Second))
    (h : (CullDatabase env db (w * Second)).outcome = Outcome.returned none) :
    (CullDatabase env db (w * Second)).conn.db =
      ⟨db.nodes.filter (fun r => decide (env.now 2 - w < r.time)),
        db.pods.filter (fun r => decide (env.now 4 - w < r.time))⟩ := by
  have hs : (0 : Int) ≤ w * Second := Int.mul_nonneg hw (by decide)
  rw [CullDatabase_success_nonneg env db (w * Second) hs h, printedSeconds_whole w hr,
    Int.natAbs_of_nonneg hw]

theorem CullDatabase_outcome_of_noFault (env : Env) (db : DB) (window : Int)
    (h : ∀ n, n < 6 → env.fault n = none) :
    (CullDatabase env db window).outcome = Outcome.returned none := by
  rw [CullDatabase_of_noFault env db window h]

/-! ## The claims -/

/-- C4 as amended (retention with an inclusive cutoff): after a successful
`CullDatabase` with a window of `w ≥ 0` whole seconds, each table holds
exactly its prior rows with `time` greater than that table's cutoff, the clock
at the table's delete statement (call number 2 for nodes, 4 for pods) less
`w`, in their prior order; no row at or before that cutoff is left, a row at
the cutoff included. -/
theorem CullDatabase_retention (env : Env) (db : DB) (w : Int) (hw : 0 ≤ w)
    (hr : IsDuration (w * Second))
    (h : (CullDatabase env db (w * Second)).outcome = Outcome.returned none) :
    (CullDatabase env db (w * Second)).conn.db.nodes =
        db.nodes.filter (fun r => decide (env.now 2 - w < r.time)) ∧
    (CullDatabase env db (w * Second)).conn.db.pods =
        db.pods.filter (fun r => decide (env.now 4 - w < r.time)) ∧
    (∀ r : NodeRow, r.time ≤ env.now 2 - w →
      r ∉ (CullDatabase env db (w * Second)).conn.db.nodes) ∧
    (∀ r : PodRow, r.time ≤ env.now 4 - w →
      r ∉ (CullDatabase env db (w * Second)).conn.db.pods) ∧
    (∀ r : NodeRow, r.time = env.now 2 - w →
      r ∉ (CullDatabase env db (w * Second)).conn.db.nodes) ∧
    (∀ r : PodRow, r.time = env.now 4 - w →
      r ∉ (CullDatabase env db (w * Second)).conn.db.pods) := by
  rw [CullDatabase_success_whole env db w hw hr h]
  refine ⟨rfl, rfl, ?_, ?_, ?_, ?_⟩ <;> intro r hr hmem <;>
    simp only [List.mem_filter, decide_eq_true_eq] at hmem <;> omega

/-- Witness of C4 as amended: rows at times 10 < 20 < 30, the clock at 125 for
both delete statements and a window of 100 seconds, so that the cutoff 25 lies
between 20 and 30: only the rows at time 30 are left. -/
theorem CullDatabase_retention_witness :
    (CullDatabase (healthy 125) threeTimes (100 * Second)).conn.db =
        ⟨[⟨"uid-a", "node-a", 3, 3, 3, 30⟩], [⟨"uid-p", "pod-a", "default", "main", 3, 3, 3, 30⟩]⟩ ∧
      ((CullDatabase (healthy 125) threeTimes (100 * Second)).conn.db.nodes =
          threeTimes.nodes.filter (fun r => decide ((healthy 125).now 2 - 100 < r.time)) ∧
        (CullDatabase (healthy 125) threeTimes (100 * Second)).conn.db.pods =
          threeTimes.pods.filter (fun r => decide ((healthy 125).now 4 - 100 < r.time)) ∧
        (∀ r : NodeRow, r.time ≤ (healthy 125).now 2 - 100 →
          r ∉ (CullDatabase (healthy 125) threeTimes (100 * Second)).conn.db.nodes) ∧
        (∀ r : PodRow, r.time ≤ (healthy 125).now 4 - 100 →
          r ∉ (CullDatabase (healthy 125) threeTimes (100 * Second)).conn.db.pods) ∧
        (∀ r : NodeRow, r.time = (healthy 125).now 2 - 100 →
          r ∉ (CullDatabase (healthy 125) threeTimes (100 * Second)).conn.db.nodes) ∧
        (∀ r : PodRow, r.time = (healthy 125).now 4 - 100 →
          r ∉ (CullDatabase (healthy 125) threeTimes (100 * Second)).conn.db.pods)) :=
  ⟨by decide,
    CullDatabase_retention (healthy 125) threeTimes 100 (by decide) ⟨by decide, by decide⟩
      (by decide)⟩

/-- Counterexample to C4 as stated: rows at times 10, 20 and 30, a window of 81
seconds, and the clock moving from 100 to 101 between the two delete
statements.  The call succeeds; the node row at 20 stays and the pod row at 20
goes, so for no `now` are both tables the rows later than `now - 81`. -/
theorem CullDatabase_retention_counterexample :
    (CullDatabase ticking threeTimes (81 * Second)).outcome = Outcome.returned none ∧
    (CullDatabase ticking threeTimes (81 * Second)).conn.db.nodes.map (fun r => r.time) =
      [20, 30] ∧
    (CullDatabase ticking threeTimes (81 * Second)).conn.db.pods.map (fun r => r.time) = [30] ∧
    ¬ ∃ now : Int,
      (CullDatabase ticking threeTimes (81 * Second)).conn.db.nodes =
        threeTimes.nodes.filter (fun r => decide (now - 81 < r.time)) ∧
      (CullDatabase ticking threeTimes (81 * Second)).conn.db.pods =
        threeTimes.pods.filter (fun r => decide (now - 81 < r.time)) := by
  refine ⟨by decide, by decide, by decide, ?_⟩
  rintro ⟨now, hn, hp⟩
  have mn : (⟨"uid-a", "node-a", 2, 2, 2, 20⟩ : NodeRow) ∈
      (CullDatabase ticking threeTimes (81 * Second)).conn.db.nodes := by decide
  have mp : (⟨"uid-p", "pod-a", "default", "main", 2, 2, 2, 20⟩ : PodRow) ∉
      (CullDatabase ticking threeTimes (81 * Second)).conn.db.pods := by decide
  rw [hn] at mn
  rw [hp] at mp
  have a : now - 81 < 20 := by simpa using (List.mem_filter.mp mn).2
  apply mp
  rw [List.mem_filter]
  exact ⟨by decide, by simpa using a⟩

/-- C2 (conservation): a successful `UpdateDatabase` leaves every stored row
where it was and appends one row per node item to nodes and one row per
container to pods (so the sum of the container counts, and nothing for a pod
without containers); each pod row carries its pod's uid, name and namespace
and its container's name. -/
theorem UpdateDatabase_conservation (env : Env) (db : DB) (ns : List NodeMetrics)
    (ps : List PodMetrics)
    (h : (UpdateDatabase env db ns ps).outcome = Outcome.returned none) :
    ∃ nrows prows,
      (UpdateDatabase env db ns ps).conn.db.nodes = db.nodes ++ nrows ∧
      (UpdateDatabase env db ns ps).conn.db.pods = db.pods ++ prows ∧
      nrows.length = ns.length ∧
      prows.length = (ps.map (fun v => v.Containers.length)).sum ∧
      nrows.map (fun r => (r.uid, r.name)) = ns.map (fun v => (v.UID, v.Name)) ∧
      prows.map (fun r => (r.uid, r.name, r.Namespace, r.container)) =
        ps.flatMap (fun v =>
          v.Containers.map (fun u => (v.UID, v.Name, v.Namespace, u.Name))) := by
  obtain ⟨nrows, prows, pre, hdb, hn, hp, _⟩ := UpdateDatabase_success env db ns ps h
  refine ⟨nrows, prows, by rw [hdb], by rw [hdb], forall₂_length _ _ hn, ?_, ?_, ?_⟩
  · rw [forall₂_length _ _ hp, containersOf_length]
  · symm
    exact forall₂_map_eq (fun v => (v.UID, v.Name)) (fun r => (r.uid, r.name))
      (fun v r hr => by simp only [hr.1, hr.2.1]) _ _ hn
  · rw [← containersOf_map_key]
    symm
    exact forall₂_map_eq (fun p => (p.1.UID, p.1.Name, p.1.Namespace, p.2.Name))
      (fun r => (r.uid, r.name, r.Namespace, r.container))
      (fun p r hr => by simp only [hr.1, hr.2.1, hr.2.2.1, hr.2.2.2.1]) _ _ hp

/-- Witness of C2: two node items and one pod with two containers written to
the empty store give two node rows and two pod rows. -/
theorem UpdateDatabase_conservation_witness :
    (UpdateDatabase (healthy 100) emptyDB [nodeA, nodeB] [podA]).outcome = Outcome.returned none ∧
    (UpdateDatabase (healthy 100) emptyDB [nodeA, nodeB] [podA]).conn.db.nodes.length = 2 ∧
    (UpdateDatabase (healthy 100) emptyDB [nodeA, nodeB] [podA]).conn.db.pods.length = 2 ∧
    ∃ nrows prows,
      (UpdateDatabase (healthy 100) emptyDB [nodeA, nodeB] [podA]).conn.db.nodes =
        emptyDB.nodes ++ nrows ∧
      (UpdateDatabase (healthy 100) emptyDB [nodeA, nodeB] [podA]).conn.db.pods =
        emptyDB.pods ++ prows ∧
      nrows.length = [nodeA, nodeB].length ∧
      prows.length = ([podA].map (fun v => v.Containers.length)).sum ∧
      nrows.map (fun r => (r.uid, r.name)) = [nodeA, nodeB].map (fun v => (v.UID, v.Name)) ∧
      prows.map (fun r => (r.uid, r.name, r.Namespace, r.container)) =
        [podA].flatMap (fun v =>
          v.Containers.map (fun u => (v.UID, v.Name, v.Namespace, u.Name))) :=
  ⟨by decide, by decide, by decide,
    UpdateDatabase_conservation (healthy 100) emptyDB [nodeA, nodeB] [podA] (by decide)⟩

theorem tdiv_thousand (m : Int) : StoredAs m (m.tdiv 1000) := by
  refine ⟨rfl, ?_, ?_, ?_⟩
  · intro h
    have h1 := abs_lt.mp h
    rcases le_or_lt 0 m with hm | hm
    · rw [Int.tdiv_eq_ediv hm (by decide)]
      omega
    · have : m = -(-m) := by omega
      rw [this, Int.neg_tdiv, Int.tdiv_eq_ediv (by omega) (by decide)]
      omega
  · intro q r hq hr hr2 hm
    have hm0 : 0 ≤ m := by omega
    rw [Int.tdiv_eq_ediv hm0 (by decide)]
    omega
  · intro q r hq hr hr2 hm
    rw [hm, Int.neg_tdiv, Int.tdiv_eq_ediv (by omega) (by decide)]
    omega

/-- C3 as amended (unit conversion): in every row a successful `UpdateDatabase`
appends, cpu is the record's CPU milli-value unchanged, and memory and storage
are the record's milli-values divided by 1000 with truncating division: a
milli-value of absolute value below 1000 is stored as 0, `1000 * q + r` with
`q ≥ 0` and `0 ≤ r < 1000` as `q`, and its negative as `-q`; node rows and
pod-container rows alike. -/
theorem UpdateDatabase_unit_conversion (env : Env) (db : DB) (ns : List NodeMetrics)
    (ps : List PodMetrics)
    (h : (UpdateDatabase env db ns ps).outcome = Outcome.returned none) :
    ∃ nrows prows,
      (UpdateDatabase env db ns ps).conn.db.nodes = db.nodes ++ nrows ∧
      (UpdateDatabase env db ns ps).conn.db.pods = db.pods ++ prows ∧
      List.Forall₂ (fun v r => r.cpu = v.Usage.Cpu.MilliValue ∧
          StoredAs v.Usage.Memory.MilliValue r.memory ∧
          StoredAs v.Usage.StorageEphemeral.MilliValue r.storage) ns nrows ∧
      List.Forall₂ (fun p r => r.cpu = p.2.Usage.Cpu.MilliValue ∧
          StoredAs p.2.Usage.Memory.MilliValue r.memory ∧
          StoredAs p.2.Usage.StorageEphemeral.MilliValue r.storage) (containersOf ps) prows := by
  obtain ⟨nrows, prows, pre, hdb, hn, hp, _⟩ := UpdateDatabase_success env db ns ps h
  refine ⟨nrows, prows, by rw [hdb], by rw [hdb], ?_, ?_⟩
  · refine forall₂_imp ?_ _ _ hn
    intro v r hr
    obtain ⟨_, _, h3, h4, h5⟩ := hr
    exact ⟨h3, h4 ▸ tdiv_thousand _, h5 ▸ tdiv_thousand _⟩
  · refine forall₂_imp ?_ _ _ hp
    intro p r hr
    obtain ⟨_, _, _, _, h3, h4, h5⟩ := hr
    exact ⟨h3, h4 ▸ tdiv_thousand _, h5 ▸ tdiv_thousand _⟩


/-- Witness of C3 as amended: the rows written for two node items and a pod
with two containers. -/
theorem UpdateDatabase_unit_conversion_witness :
    (UpdateDatabase (healthy 100) emptyDB [nodeA, nodeB] [podA]).conn.db.nodes.map
        (fun r => (r.cpu, r.memory, r.storage)) = [(250, 2048, 0), (125, 1, 5)] ∧
    (UpdateDatabase (healthy 100) emptyDB [nodeA, nodeB] [podA]).conn.db.pods.map
        (fun r => (r.cpu, r.memory, r.storage)) = [(10, 3, 0), (5, 1, 4)] ∧
    ∃ nrows prows,
      (UpdateDatabase (healthy 100) emptyDB [nodeA, nodeB] [podA]).conn.db.nodes =
        emptyDB.nodes ++ nrows ∧
      (UpdateDatabase (healthy 100) emptyDB [nodeA, nodeB] [podA]).conn.db.pods =
        emptyDB.pods ++ prows ∧
      List.Forall₂ (fun v r => r.cpu = v.Usage.Cpu.MilliValue ∧
          StoredAs v.Usage.Memory.MilliValue r.memory ∧
          StoredAs v.Usage.StorageEphemeral.MilliValue r.storage) [nodeA, nodeB] nrows ∧
      List.Forall₂ (fun p r => r.cpu = p.2.Usage.Cpu.MilliValue ∧
          StoredAs p.2.Usage.Memory.MilliValue r.memory ∧
          StoredAs p.2.Usage.StorageEphemeral.MilliValue r.storage)
        (containersOf [podA]) prows :=
  ⟨by decide, by decide,
    UpdateDatabase_unit_conversion (healthy 100) emptyDB [nodeA, nodeB] [podA] (by decide)⟩

/-- Counterexample to C3 as stated: the memory milli-value -1500 is
`1000 * q + r` with `q = -2` and `r = 500`, and `UpdateDatabase` stores -1,
not `q`. -/
theorem UpdateDatabase_negative_milli_counterexample :
    ¬ (∀ q r : Int, 0 ≤ r → r < 1000 → nodeNeg.Usage.Memory.MilliValue = 1000 * q + r →
        (UpdateDatabase (healthy 100) emptyDB [nodeNeg] []).conn.db.nodes.map
          (fun row => row.memory) = [q]) := by
  intro H
  have h := H (-2) 500 (by decide) (by decide) (by decide)
  revert h
  decide

/-- C1 (the code does not roll back): whenever `UpdateDatabase` returns the
error of a failed call, the persisted tables are what they were before the
call, but `Rollback` has not been called and the transaction, when one was
begun, is not done: it is still open, holding the rows inserted so far. -/
theorem UpdateDatabase_failure_not_rolled_back (env : Env) (db : DB) (ns : List NodeMetrics)
    (ps : List PodMetrics) (code : Nat)
    (h : (UpdateDatabase env db ns ps).outcome = Outcome.returned (some (Err.driver code))) :
    (UpdateDatabase env db ns ps).conn.db = db ∧
    Call.Rollback ∉ (UpdateDatabase env db ns ps).conn.calls ∧
    ∀ tx, (UpdateDatabase env db ns ps).tx = some tx → tx.done = false := by
  obtain ⟨h1, _, h3, h4, _⟩ := UpdateDatabase_driver_error env db ns ps code h
  exact ⟨h1, h3, h4⟩

/-- Witness of C1: with two node items, the insert of the second one (call
number 3) fails; the function returns that error, the store is untouched, and
the transaction is left open with the first row pending. -/
theorem UpdateDatabase_failure_not_rolled_back_witness :
    (UpdateDatabase (failingAt 3 7 100) emptyDB [nodeA, nodeB] [podA]).outcome =
        Outcome.returned (some (Err.driver 7)) ∧
    (UpdateDatabase (failingAt 3 7 100) emptyDB [nodeA, nodeB] [podA]).conn.calls =
        [Call.Begin, Call.Prepare, Call.Exec, Call.Exec] ∧
    (UpdateDatabase (failingAt 3 7 100) emptyDB [nodeA, nodeB] [podA]).tx =
        some ⟨[⟨"uid-a", "node-a", 250, 2048, 0, 100⟩], [], false⟩ ∧
    ((UpdateDatabase (failingAt 3 7 100) emptyDB [nodeA, nodeB] [podA]).conn.db = emptyDB ∧
      Call.Rollback ∉ (UpdateDatabase (failingAt 3 7 100) emptyDB [nodeA, nodeB] [podA]).conn.calls ∧
      ∀ tx, (UpdateDatabase (failingAt 3 7 100) emptyDB [nodeA, nodeB] [podA]).tx = some tx →
        tx.done = false) :=
  ⟨by decide, by decide, by decide,
    UpdateDatabase_failure_not_rolled_back (failingAt 3 7 100) emptyDB [nodeA, nodeB] [podA] 7
      (by decide)⟩

/-- C6 (the code leaks the transaction): when `Begin` has succeeded and
`UpdateDatabase` or `CullDatabase` returns the error of a failed `Prepare` or
`Exec`, the function has called neither `Commit` nor `Rollback` and returns
with the transaction not done. -/
theorem early_return_leaves_transaction_open (env : Env) (db : DB) (ns : List NodeMetrics)
    (ps : List PodMetrics) (window : Int) (code : Nat) (h0 : env.fault 0 = none) :
    ((UpdateDatabase env db ns ps).outcome = Outcome.returned (some (Err.driver code)) →
      Call.Commit ∉ (UpdateDatabase env db ns ps).conn.calls ∧
      Call.Rollback ∉ (UpdateDatabase env db ns ps).conn.calls ∧
      ∃ tx, (UpdateDatabase env db ns ps).tx = some tx ∧ tx.done = false) ∧
    ((CullDatabase env db window).outcome = Outcome.returned (some (Err.driver code)) →
      Call.Commit ∉ (CullDatabase env db window).conn.calls ∧
      Call.Rollback ∉ (CullDatabase env db window).conn.calls ∧
      ∃ tx, (CullDatabase env db window).tx = some tx ∧ tx.done = false) := by
  constructor
  · intro h
    obtain ⟨_, h2, h3, h4, h5⟩ := UpdateDatabase_driver_error env db ns ps code h
    obtain ⟨tx, htx⟩ := h5 h0
    exact ⟨h2, h3, tx, htx, h4 tx htx⟩
  · intro h
    rcases CullDatabase_paths env db window with ⟨hc, _⟩ | ⟨hc, _⟩ | ⟨_, _, h2, h3, h4⟩ | ⟨hc, _⟩
    · rw [hc] at h; cases h
    · rw [hc] at h; cases h
    · exact ⟨h2, h3, h4⟩
    · rw [hc] at h; cases h

/-- Witness of C6: the `Prepare` of the pods insert fails in `UpdateDatabase`
(call number 4 with two node items) and the `Exec` of the nodes delete fails
in `CullDatabase` (call number 2); both return with the transaction open. -/
theorem early_return_leaves_transaction_open_witness :
    (UpdateDatabase (failingAt 4 7 100) emptyDB [nodeA, nodeB] [podA]).outcome =
        Outcome.returned (some (Err.driver 7)) ∧
    (CullDatabase (failingAt 2 7 100) threeTimes (60 * Second)).outcome =
        Outcome.returned (some (Err.driver 7)) ∧
    (Call.Commit ∉ (UpdateDatabase (failingAt 4 7 100) emptyDB [nodeA, nodeB] [podA]).conn.calls ∧
      Call.Rollback ∉ (UpdateDatabase (failingAt 4 7 100) emptyDB [nodeA, nodeB] [podA]).conn.calls ∧
      ∃ tx, (UpdateDatabase (failingAt 4 7 100) emptyDB [nodeA, nodeB] [podA]).tx = some tx ∧
        tx.done = false) ∧
    (Call.Commit ∉ (CullDatabase (failingAt 2 7 100) threeTimes (60 * Second)).conn.calls ∧
      Call.Rollback ∉ (CullDatabase (failingAt 2 7 100) threeTimes (60 * Second)).conn.calls ∧
      ∃ tx, (CullDatabase (failingAt 2 7 100) threeTimes (60 * Second)).tx = some tx ∧ tx.done = false) :=
  ⟨by decide, by decide,
    (early_return_leaves_transaction_open (failingAt 4 7 100) emptyDB [nodeA, nodeB] [podA]
      (60 * Second) 7 rfl).1 (by decide),
    (early_return_leaves_transaction_open (failingAt 2 7 100) threeTimes [nodeA, nodeB] [podA]
      (60 * Second) 7 rfl).2 (by decide)⟩

/-- C8 (the code hands back the rollback's error): on a run that commits,
`Commit` is called exactly once and `Rollback` never; but whenever
`UpdateDatabase` or `CullDatabase` calls `Rollback`, which they do only after
a failed `Commit`, the handle is already done, `Rollback` returns
`sql.ErrTxDone`, and that error is returned in place of the commit's own. -/
theorem commit_failure_returns_ErrTxDone (env : Env) (db : DB) (ns : List NodeMetrics)
    (ps : List PodMetrics) (window : Int) :
    ((UpdateDatabase env db ns ps).outcome = Outcome.returned none →
      (UpdateDatabase env db ns ps).conn.calls.count Call.Commit = 1 ∧
      Call.Rollback ∉ (UpdateDatabase env db ns ps).conn.calls) ∧
    ((CullDatabase env db window).outcome = Outcome.returned none →
      (CullDatabase env db window).conn.calls.count Call.Commit = 1 ∧
      Call.Rollback ∉ (CullDatabase env db window).conn.calls) ∧
    (Call.Rollback ∈ (UpdateDatabase env db ns ps).conn.calls →
      (UpdateDatabase env db ns ps).outcome = Outcome.returned (some Err.ErrTxDone) ∧
      ∃ pre code, (UpdateDatabase env db ns ps).conn.calls = pre ++ [Call.Commit, Call.Rollback] ∧
        env.fault pre.length = some code) ∧
    (Call.Rollback ∈ (CullDatabase env db window).conn.calls →
      (CullDatabase env db window).outcome = Outcome.returned (some Err.ErrTxDone) ∧
      ∃ code, env.fault 5 = some code) := by
  refine ⟨?_, ?_, ?_, ?_⟩
  · intro h
    obtain ⟨_, _, pre, _, _, _, hcalls, hc, hr⟩ := UpdateDatabase_success env db ns ps h
    rw [hcalls]
    constructor
    · rw [List.count_append, List.count_eq_zero.mpr hc]
      rfl
    · simp [hr]
  · intro h
    rcases CullDatabase_paths env db window with ⟨_, _, hcalls⟩ | ⟨hc, _⟩ | ⟨⟨_, hc⟩, _⟩ | ⟨hc, _⟩
    · rw [hcalls]
      decide
    · rw [hc] at h; cases h
    · rw [hc] at h; cases h
    · rw [hc] at h; cases h
  · intro h
    obtain ⟨h1, _, pre, code, h2, _, _, h3⟩ := UpdateDatabase_rollback env db ns ps h
    exact ⟨h1, pre, code, h2, h3⟩
  · intro h
    rcases CullDatabase_paths env db window with ⟨_, _, hcalls⟩ | ⟨_, _, _, _, hr⟩ | ⟨_, _, _, hr, _⟩ |
      ⟨hc, _, hcode, _⟩
    · rw [hcalls] at h
      exact absurd h (by decide)
    · exact absurd h hr
    · exact absurd h hr
    · exact ⟨hc, hcode⟩

/-- Witness of C8: `Commit` fails with driver error 7 in `UpdateDatabase` (call
number 7 with two node items and two containers) and in `CullDatabase` (call
number 5); both return `sql.ErrTxDone`, not error 7. -/
theorem commit_failure_returns_ErrTxDone_witness :
    (UpdateDatabase (failingAt 7 7 100) emptyDB [nodeA, nodeB] [podA]).conn.calls =
      [Call.Begin, Call.Prepare, Call.Exec, Call.Exec, Call.Prepare, Call.Exec, Call.Exec,
        Call.Commit, Call.Rollback] ∧
    (UpdateDatabase (failingAt 7 7 100) emptyDB [nodeA, nodeB] [podA]).outcome ≠
      Outcome.returned (some (Err.driver 7)) ∧
    (CullDatabase (failingAt 5 7 100) threeTimes (60 * Second)).outcome ≠
      Outcome.returned (some (Err.driver 7)) ∧
    ((UpdateDatabase (failingAt 7 7 100) emptyDB [nodeA, nodeB] [podA]).outcome =
        Outcome.returned (some Err.ErrTxDone) ∧
      ∃ pre code,
        (UpdateDatabase (failingAt 7 7 100) emptyDB [nodeA, nodeB] [podA]).conn.calls =
          pre ++ [Call.Commit, Call.Rollback] ∧
        (failingAt 7 7 100).fault pre.length = some code) ∧
    ((CullDatabase (failingAt 5 7 100) threeTimes (60 * Second)).outcome =
        Outcome.returned (some Err.ErrTxDone) ∧
      ∃ code, (failingAt 5 7 100).fault 5 = some code) :=
  ⟨by decide, by decide, by decide,
    (commit_failure_returns_ErrTxDone (failingAt 7 7 100) emptyDB [nodeA, nodeB] [podA]
      (60 * Second)).2.2.1 (by decide),
    (commit_failure_returns_ErrTxDone (failingAt 5 7 100) threeTimes [nodeA, nodeB] [podA]
      (60 * Second)).2.2.2 (by decide)⟩

/-- C9 (the code uses nil handles): when `db.Begin()` fails, `CullDatabase`
does not return its error but goes on to call `Prepare` on the nil
transaction and panics; when the `Prepare` of the pods delete fails, it does
not return that error but goes on to call `Exec` on the nil statement and
panics, with the transaction left open. -/
theorem CullDatabase_nil_handle_panics (env : Env) (db : DB) (window : Int) (code : Nat) :
    (env.fault 0 = some code → (CullDatabase env db window).outcome = Outcome.panicked) ∧
    (env.fault 0 = none → env.fault 1 = none → env.fault 2 = none → env.fault 3 = some code →
      (CullDatabase env db window).outcome = Outcome.panicked ∧
      ∃ tx, (CullDatabase env db window).tx = some tx ∧ tx.done = false) := by
  constructor
  · intro h0
    simp [CullDatabase, Begin, h0]
  · intro h0 h1 h2 h3
    simp [CullDatabase, Begin, Prepare, ExecDeleteNodes, Conn.call, h0, h1, h2, h3]

/-- Witness of C9: `Begin` fails (call number 0), and the second `Prepare`
fails (call number 3). -/
theorem CullDatabase_nil_handle_panics_witness :
    (CullDatabase (failingAt 0 7 100) threeTimes (60 * Second)).outcome = Outcome.panicked ∧
    ((CullDatabase (failingAt 3 7 100) threeTimes (60 * Second)).outcome = Outcome.panicked ∧
      ∃ tx, (CullDatabase (failingAt 3 7 100) threeTimes (60 * Second)).tx = some tx ∧ tx.done = false) :=
  ⟨(CullDatabase_nil_handle_panics (failingAt 0 7 100) threeTimes (60 * Second) 7).1 rfl,
    (CullDatabase_nil_handle_panics (failingAt 3 7 100) threeTimes (60 * Second) 7).2 rfl rfl rfl rfl⟩


/-- C5 as amended (idempotent culling): after a successful `CullDatabase`, a
second call with the same window, a store that answers every call and no
write in between returns success, adds and changes no row, and removes only
rows that lie between the two cutoffs of their table: with `R` the whole
number of seconds that `windowStr` carries, node rows with
`(clock at the first nodes delete) - R < time ≤ (clock at the second nodes
delete) - R`, pod rows likewise with the clocks at the pods deletes, and no
row at all for a negative window; when the clock reads the same at each
delete as at that delete of the first call, it leaves both tables as the
first call left them. -/
theorem CullDatabase_idempotent (env1 env2 : Env) (db : DB) (window : Int)
    (h1 : (CullDatabase env1 db window).outcome = Outcome.returned none)
    (hf : ∀ n, n < 6 → env2.fault n = none) :
    (CullDatabase env2 (CullDatabase env1 db window).conn.db window).outcome =
      Outcome.returned none ∧
    (∀ r ∈ (CullDatabase env1 db window).conn.db.nodes,
      r ∉ (CullDatabase env2 (CullDatabase env1 db window).conn.db window).conn.db.nodes →
        0 ≤ window ∧ env1.now 2 - (printedSeconds window : Int) < r.time ∧
          r.time ≤ env2.now 2 - (printedSeconds window : Int)) ∧
    (∀ r ∈ (CullDatabase env1 db window).conn.db.pods,
      r ∉ (CullDatabase env2 (CullDatabase env1 db window).conn.db window).conn.db.pods →
        0 ≤ window ∧ env1.now 4 - (printedSeconds window : Int) < r.time ∧
          r.time ≤ env2.now 4 - (printedSeconds window : Int)) ∧
    List.Sublist (CullDatabase env2 (CullDatabase env1 db window).conn.db window).conn.db.nodes
      (CullDatabase env1 db window).conn.db.nodes ∧
    List.Sublist (CullDatabase env2 (CullDatabase env1 db window).conn.db window).conn.db.pods
      (CullDatabase env1 db window).conn.db.pods ∧
    (env2.now 2 = env1.now 2 → env2.now 4 = env1.now 4 →
      (CullDatabase env2 (CullDatabase env1 db window).conn.db window).conn.db =
        (CullDatabase env1 db window).conn.db) := by
  have h2 := CullDatabase_outcome_of_noFault env2 (CullDatabase env1 db window).conn.db window hf
  refine ⟨h2, ?_⟩
  rcases le_or_lt 0 window with hw | hw
  · have e2 := CullDatabase_success_nonneg env2 (CullDatabase env1 db window).conn.db window hw h2
    have e1 := CullDatabase_success_nonneg env1 db window hw h1
    have m1 : ∀ r ∈ (CullDatabase env1 db window).conn.db.nodes,
        env1.now 2 - (printedSeconds window : Int) < r.time := by
      intro r hr
      rw [e1] at hr
      simpa using (List.mem_filter.mp hr).2
    have m2 : ∀ r ∈ (CullDatabase env1 db window).conn.db.pods,
        env1.now 4 - (printedSeconds window : Int) < r.time := by
      intro r hr
      rw [e1] at hr
      simpa using (List.mem_filter.mp hr).2
    rw [e2]
    refine ⟨?_, ?_, List.filter_sublist _, List.filter_sublist _, ?_⟩
    · intro r hr hnot
      have := m1 r hr
      simp only [List.mem_filter, decide_eq_true_eq, not_and, not_lt] at hnot
      exact ⟨hw, this, hnot hr⟩
    · intro r hr hnot
      have := m2 r hr
      simp only [List.mem_filter, decide_eq_true_eq, not_and, not_lt] at hnot
      exact ⟨hw, this, hnot hr⟩
    · intro hn hp
      have f1 : (CullDatabase env1 db window).conn.db.nodes.filter
          (fun r => decide (env2.now 2 - (printedSeconds window : Int) < r.time)) =
            (CullDatabase env1 db window).conn.db.nodes :=
        List.filter_eq_self.mpr (fun r hr => by simpa [hn] using m1 r hr)
      have f2 : (CullDatabase env1 db window).conn.db.pods.filter
          (fun r => decide (env2.now 4 - (printedSeconds window : Int) < r.time)) =
            (CullDatabase env1 db window).conn.db.pods :=
        List.filter_eq_self.mpr (fun r hr => by simpa [hp] using m2 r hr)
      rw [f1, f2]
  · have e2 := CullDatabase_success_neg env2 (CullDatabase env1 db window).conn.db window hw h2
    rw [e2]
    exact ⟨fun r hr hnot => absurd hr hnot, fun r hr hnot => absurd hr hnot,
      List.Sublist.refl _, List.Sublist.refl _, fun _ _ => rfl⟩

/-- Witness of C5 as amended: rows at times 10, 20 and 30, a window of 100
seconds, a first cull with the clock at 115 and a second with the clock at
125: the first removes the rows at 10, the second the rows at 20; a second
cull with the clock still at 115 removes nothing. -/
theorem CullDatabase_idempotent_witness :
    printedSeconds (100 * Second) = 100 ∧
    (CullDatabase (healthy 115) threeTimes (100 * Second)).conn.db.nodes.map (fun r => r.time) =
      [20, 30] ∧
    (CullDatabase (healthy 125)
      (CullDatabase (healthy 115) threeTimes (100 * Second)).conn.db
      (100 * Second)).conn.db.nodes.map (fun r => r.time) = [30] ∧
    (CullDatabase (healthy 125)
      (CullDatabase (healthy 115) threeTimes (100 * Second)).conn.db
      (100 * Second)).outcome = Outcome.returned none ∧
    (CullDatabase (healthy 115)
      (CullDatabase (healthy 115) threeTimes (100 * Second)).conn.db
      (100 * Second)).conn.db =
        (CullDatabase (healthy 115) threeTimes (100 * Second)).conn.db :=
  ⟨by decide, by decide, by decide,
    (CullDatabase_idempotent (healthy 115) (healthy 125) threeTimes (100 * Second) (by decide)
      (fun _ _ => rfl)).1,
    (CullDatabase_idempotent (healthy 115) (healthy 115) threeTimes (100 * Second) (by decide)
      (fun _ _ => rfl)).2.2.2.2.2 rfl rfl⟩

/-- Counterexample to C5 as stated, in three runs.  A window of 2.5 seconds is
printed as `-2 seconds`: after a cull with the clock at 20, a second cull with
the clock at 22 removes the node row at time 20, which is later than
`22 - 2.5`.  With a window of 10 seconds and the clock moving from 100 to 101
inside the second call, that call removes the pod row at time 91, which is
later than `100 - 10`.  And when `db.Begin()` fails in the second call, it
does not return success. -/
theorem CullDatabase_idempotent_counterexample :
    (windowStr 2500000000 = "-2 seconds".toList ∧
      (CullDatabase (healthy 20) threeTimes 2500000000).outcome = Outcome.returned none ∧
      ¬ (∀ r ∈ (CullDatabase (healthy 20) threeTimes 2500000000).conn.db.nodes,
          r ∉ (CullDatabase (healthy 22)
            (CullDatabase (healthy 20) threeTimes 2500000000).conn.db 2500000000).conn.db.nodes →
          20 * Second - 2500000000 < r.time * Second ∧
            r.time * Second ≤ 22 * Second - 2500000000)) ∧
    ((CullDatabase (healthy 90) bothAt91 (10 * Second)).outcome = Outcome.returned none ∧
      ticking.now 0 = 100 ∧
      ¬ (∀ r ∈ (CullDatabase (healthy 90) bothAt91 (10 * Second)).conn.db.pods,
          r ∉ (CullDatabase ticking
            (CullDatabase (healthy 90) bothAt91 (10 * Second)).conn.db (10 * Second)).conn.db.pods →
          90 - 10 < r.time ∧ r.time ≤ 100 - 10)) ∧
    (CullDatabase (failingAt 0 7 100)
      (CullDatabase (healthy 90) bothAt91 (10 * Second)).conn.db (10 * Second)).outcome ≠
        Outcome.returned none := by
  refine ⟨⟨by decide, by decide, ?_⟩, ⟨by decide, by decide, ?_⟩, by decide⟩
  · intro H
    have h := (H ⟨"uid-a", "node-a", 2, 2, 2, 20⟩ (by decide) (by decide)).2
    revert h
    decide
  · intro H
    have h := (H ⟨"uid-p", "pod-a", "default", "main", 1, 1, 1, 91⟩ (by decide) (by decide)).2
    revert h
    decide

/-- Counterexample to C7 as stated: the clock moves from 100 to 101 between the
two delete statements, the window is 10 seconds, and both tables hold one row
at time 91.  The call succeeds, the node row stays and the pod row goes: no
single cutoff gives both tables. -/
theorem CullDatabase_two_cutoffs_counterexample :
    (CullDatabase ticking bothAt91 (10 * Second)).outcome = Outcome.returned none ∧
    ¬ ∃ cutoff : Int,
      (CullDatabase ticking bothAt91 (10 * Second)).conn.db.nodes =
        bothAt91.nodes.filter (fun r => decide (cutoff < r.time)) ∧
      (CullDatabase ticking bothAt91 (10 * Second)).conn.db.pods =
        bothAt91.pods.filter (fun r => decide (cutoff < r.time)) := by
  refine ⟨by decide, ?_⟩
  rintro ⟨cutoff, hn, hp⟩
  have en : (CullDatabase ticking bothAt91 (10 * Second)).conn.db.nodes = bothAt91.nodes := by
    decide
  have ep : (CullDatabase ticking bothAt91 (10 * Second)).conn.db.pods = [] := by decide
  rw [en] at hn
  rw [ep] at hp
  have a : cutoff < 91 := by
    by_contra hc
    simp [bothAt91, hc] at hn
  have b : ¬ cutoff < 91 := by
    intro hc
    simp [bothAt91, hc] at hp
  exact b a

/-- C7 as amended: when `CullDatabase` succeeds, each delete has used the cutoff
that SQLite computes when that statement runs.  For a window that is not
negative it is the clock at that statement less `R`, the whole number of
seconds that `windowStr` carries: the clock at the nodes delete (call number
2) for nodes, the clock at the pods delete (call number 4) for pods.  For a
negative window it is NULL for both and nothing is deleted.  When the call
does not return success, neither persisted table has lost a row. -/
theorem CullDatabase_cutoff_per_statement (env : Env) (db : DB) (window : Int) :
    ((CullDatabase env db window).outcome = Outcome.returned none →
      (CullDatabase env db window).conn.db.nodes = db.nodes.filter (fun r =>
        !(timeLeCutoff r.time
          (if 0 ≤ window then some (env.now 2 - (printedSeconds window : Int)) else none))) ∧
      (CullDatabase env db window).conn.db.pods = db.pods.filter (fun r =>
        !(timeLeCutoff r.time
          (if 0 ≤ window then some (env.now 4 - (printedSeconds window : Int)) else none)))) ∧
    ((CullDatabase env db window).outcome ≠ Outcome.returned none →
      (CullDatabase env db window).conn.db = db) := by
  constructor
  · intro h
    rw [CullDatabase_of_noFault env db window (CullDatabase_noFault_of_success env db window h)]
    simp only [datetimeNow_windowStr]
    exact ⟨trivial, trivial⟩
  · exact CullDatabase_db_of_failure env db window

/-- Witness of C7 as amended: with a window of 10 seconds and the clock moving
from 100 to 101 between the statements, the node row at 91 stays and the pod
row at 91 goes; with a window of 2.5 seconds, printed as 2, and the clock at
22, the rows at 10 and 20 go; with a window of -5 seconds nothing goes; with
the commit failing both rows stay. -/
theorem CullDatabase_cutoff_per_statement_witness :
    (printedSeconds (10 * Second) = 10 ∧ printedSeconds 2500000000 = 2) ∧
    ((CullDatabase ticking bothAt91 (10 * Second)).conn.db.nodes = bothAt91.nodes ∧
      (CullDatabase ticking bothAt91 (10 * Second)).conn.db.pods = []) ∧
    ((CullDatabase ticking bothAt91 (10 * Second)).conn.db.nodes =
        bothAt91.nodes.filter (fun r => !(timeLeCutoff r.time
          (if (0 : Int) ≤ 10 * Second
            then some (ticking.now 2 - (printedSeconds (10 * Second) : Int)) else none))) ∧
      (CullDatabase ticking bothAt91 (10 * Second)).conn.db.pods =
        bothAt91.pods.filter (fun r => !(timeLeCutoff r.time
          (if (0 : Int) ≤ 10 * Second
            then some (ticking.now 4 - (printedSeconds (10 * Second) : Int)) else none)))) ∧
    ((CullDatabase (healthy 22) threeTimes 2500000000).conn.db.nodes =
        threeTimes.nodes.filter (fun r => !(timeLeCutoff r.time
          (if (0 : Int) ≤ 2500000000
            then some ((healthy 22).now 2 - (printedSeconds 2500000000 : Int)) else none))) ∧
      (CullDatabase (healthy 22) threeTimes 2500000000).conn.db.pods =
        threeTimes.pods.filter (fun r => !(timeLeCutoff r.time
          (if (0 : Int) ≤ 2500000000
            then some ((healthy 22).now 4 - (printedSeconds 2500000000 : Int)) else none)))) ∧
    ((CullDatabase (healthy 100) threeTimes (-5 * Second)).conn.db.nodes =
        threeTimes.nodes.filter (fun r => !(timeLeCutoff r.time
          (if (0 : Int) ≤ -5 * Second
            then some ((healthy 100).now 2 - (printedSeconds (-5 * Second) : Int)) else none))) ∧
      (CullDatabase (healthy 100) threeTimes (-5 * Second)).conn.db.pods =
        threeTimes.pods.filter (fun r => !(timeLeCutoff r.time
          (if (0 : Int) ≤ -5 * Second
            then some ((healthy 100).now 4 - (printedSeconds (-5 * Second) : Int)) else none)))) ∧
    (CullDatabase (healthy 100) threeTimes (-5 * Second)).conn.db = threeTimes ∧
    (CullDatabase (failingAt 5 7 100) bothAt91 (10 * Second)).conn.db = bothAt91 :=
  ⟨⟨by decide, by decide⟩, ⟨by decide, by decide⟩,
    (CullDatabase_cutoff_per_statement ticking bothAt91 (10 * Second)).1 (by decide),
    (CullDatabase_cutoff_per_statement (healthy 22) threeTimes 2500000000).1 (by decide),
    (CullDatabase_cutoff_per_statement (healthy 100) threeTimes (-5 * Second)).1 (by decide),
    by decide,
    (CullDatabase_cutoff_per_statement (failingAt 5 7 100) bothAt91 (10 * Second)).2 (by decide)⟩

/-- Counterexample to C10 as stated: for a window of -5 seconds the modifier is
`--5 seconds`, which does not denote the cutoff `now + 5`; the call succeeds
and the rows at times 10, 20 and 30, all at or before `100 + 5`, are still
there. -/
theorem CullDatabase_negative_window_counterexample :
    windowStr (-5 * Second) = "--5 seconds".toList ∧
    datetimeNow 100 (windowStr (-5 * Second)) ≠ some (100 - (-5)) ∧
    (CullDatabase (healthy 100) threeTimes (-5 * Second)).outcome = Outcome.returned none ∧
    ¬ (∀ r ∈ (CullDatabase (healthy 100) threeTimes (-5 * Second)).conn.db.nodes,
        ¬ r.time ≤ 100 - (-5)) := by
  refine ⟨by decide, by decide, by decide, ?_⟩
  intro H
  have hm : (⟨"uid-a", "node-a", 1, 1, 1, 10⟩ : NodeRow) ∈
      (CullDatabase (healthy 100) threeTimes (-5 * Second)).conn.db.nodes := by decide
  exact H _ hm (by decide)

/-- C10 as amended: with a store that answers every call and the clock at `now`,
`CullDatabase` with a window of `w ≤ 0` whole seconds returns success; for
`w = 0` the modifier is `-0 seconds`, the cutoff is `now`, and every row with
`time ≤ now` is deleted; for `w < 0` the modifier starts with two minus
signs, is not a valid modifier, the cutoff is NULL and no row is deleted. -/
theorem CullDatabase_nonpositive_window (env : Env) (db : DB) (w now : Int) (hw : w ≤ 0)
    (hr : IsDuration (w * Second))
    (hf : ∀ n, n < 6 → env.fault n = none) (hn : env.now 2 = now) (hp : env.now 4 = now) :
    (CullDatabase env db (w * Second)).outcome = Outcome.returned none ∧
    (w = 0 →
      windowStr (w * Second) = "-0 seconds".toList ∧
      datetimeNow now (windowStr (w * Second)) = some now ∧
      (CullDatabase env db (w * Second)).conn.db.nodes =
        db.nodes.filter (fun r => decide (now < r.time)) ∧
      (CullDatabase env db (w * Second)).conn.db.pods =
        db.pods.filter (fun r => decide (now < r.time))) ∧
    (w < 0 →
      windowStr (w * Second) =
        '-' :: '-' :: (Nat.toDigits 10 w.natAbs ++ " seconds".toList) ∧
      datetimeNow now (windowStr (w * Second)) = none ∧
      (CullDatabase env db (w * Second)).conn.db = db) := by
  have h := CullDatabase_outcome_of_noFault env db (w * Second) hf
  refine ⟨h, ?_, ?_⟩
  · intro h0
    subst h0
    have e := CullDatabase_success_whole env db 0 (le_refl 0) hr h
    rw [hn, hp] at e
    refine ⟨by decide, ?_, ?_, ?_⟩
    · rw [datetimeNow_windowStr, printedSeconds_whole 0 hr]
      simp
    · rw [e]
      simp
    · rw [e]
      simp
  · intro hneg
    have hs : w * Second < 0 := Int.mul_neg_of_neg_of_pos hneg (by decide)
    refine ⟨?_, ?_, CullDatabase_success_neg env db (w * Second) hs h⟩
    · rw [windowStr_of_neg (w * Second) hs, printedSeconds_whole w hr]
    · rw [datetimeNow_windowStr]
      simp [not_le.mpr hs]

/-- Witness of C10 as amended: a window of 0 with the clock at 20 deletes the
rows at 10 and 20; a window of -5 seconds deletes nothing. -/
theorem CullDatabase_nonpositive_window_witness :
    ((CullDatabase (healthy 20) threeTimes (0 * Second)).conn.db.nodes =
        threeTimes.nodes.filter (fun r => decide (20 < r.time)) ∧
      (CullDatabase (healthy 20) threeTimes (0 * Second)).conn.db.nodes.map (fun r => r.time) =
        [30]) ∧
    (windowStr (-5 * Second) =
        '-' :: '-' :: (Nat.toDigits 10 (-5 : Int).natAbs ++ " seconds".toList) ∧
      datetimeNow 100 (windowStr (-5 * Second)) = none ∧
      (CullDatabase (healthy 100) threeTimes (-5 * Second)).conn.db = threeTimes) :=
  ⟨⟨((CullDatabase_nonpositive_window (healthy 20) threeTimes 0 20 (by decide)
        ⟨by decide, by decide⟩ (fun _ _ => rfl) rfl rfl).2.1 rfl).2.2.1, by decide⟩,
    (CullDatabase_nonpositive_window (healthy 100) threeTimes (-5) 100 (by decide)
      ⟨by decide, by decide⟩ (fun _ _ => rfl) rfl rfl).2.2 (by decide)⟩

end Database
